import Mathlib

/-! # Build-action synthesis for Rust crates (`rust/builder.go`)

A shallow embedding of `rust/builder.go` from `build_soong`.  The Go code emits
build actions as a side effect (`ctx.Build`); here every function returns the
list of emitted actions, in emission order, next to its Go return value.  A Go
`panic` is `Except.error`.

Go strings are Lean `String`s; the byte-level library functions the file uses
(`strings.Join`, `strings.TrimPrefix`, `strings.TrimSuffix`, `filepath.Ext`,
`filepath.Base`, `pathtools.ReplaceExtension`) are transcribed from their Go
sources on the character list of the string (all bytes they inspect are ASCII).
-/

set_option autoImplicit false

/-! ## Go library functions -/

namespace strings

/-- Go `strings.Join(elems, sep)`: the elements separated by `sep`. -/
def Join : List String → String → String
  | [], _ => ""
  | [a], _ => a
  | a :: b :: rest, sep => a ++ sep ++ Join (b :: rest) sep

/-- Go `strings.HasPrefix(s, pre)`. -/
def HasPrefix (s pre : String) : Bool := pre.data.isPrefixOf s.data

/-- Go `strings.HasSuffix(s, suf)`. -/
def HasSuffix (s suf : String) : Bool := suf.data.isSuffixOf s.data

/-- Go `strings.TrimPrefix(s, pre)`: `s` without the leading `pre`, or `s` itself. -/
def TrimPrefix (s pre : String) : String :=
  if HasPrefix s pre then ⟨s.data.drop pre.data.length⟩ else s

/-- Go `strings.TrimSuffix(s, suf)`: `s` without the trailing `suf`, or `s` itself. -/
def TrimSuffix (s suf : String) : String :=
  if HasSuffix s suf then ⟨s.data.take (s.data.length - suf.data.length)⟩ else s

end strings

namespace filepath

/-- The loop of Go `filepath.Ext`: `for i := len(path)-1; i >= 0 && path[i] != '/'; i--`.
The first argument holds `path[0..i]` reversed (so `path[i]` is its head), the
second holds `path[i+1..]`; on a dot the loop returns `path[i:]`. -/
def extLoop : List Char → List Char → List Char
  | [], _ => []
  | c :: cs, acc =>
    if c = '/' then [] else if c = '.' then c :: acc else extLoop cs (c :: acc)

/-- Go `filepath.Ext(path)`: the suffix beginning at the final dot in the final
element of `path`; empty if there is no dot. -/
def Ext (path : String) : String := ⟨extLoop path.data.reverse []⟩

/-- Go `filepath.Base(path)` (Unix): the last element of `path`, trailing
slashes removed; `"."` for the empty path and `"/"` for a path of slashes only. -/
def Base (path : String) : String :=
  if path = "" then "."
  else
    let stripped := path.data.reverse.dropWhile (fun c => c == '/')
    let last := (stripped.takeWhile (fun c => c != '/')).reverse
    if last = [] then "/" else ⟨last⟩

end filepath

namespace pathtools

/-- Go `pathtools.ReplaceExtension(path, extension)` (blueprint): strips
`filepath.Ext(path)` when it is non-empty, then appends `"." + extension`. -/
def ReplaceExtension (path extension : String) : String :=
  let oldExt := filepath.Ext path
  let path := if oldExt ≠ "" then strings.TrimSuffix path oldExt else path
  path ++ "." ++ extension

end pathtools

/-! ## The `android` package types used by `rust/builder.go` -/

namespace android

/-- Modelled from the spec: `android.Path` (an interface declared in the
`android` package, outside `rust/builder.go`).  A path is identified by what its
methods return: `path` is `String()`, `rel` is `Rel()`. -/
structure Path where
  path : String
  rel : String
  deriving DecidableEq, Repr

/-- Method `Path.Rel()`. -/
def Path.Rel (p : Path) : String := p.rel

/-- Method `Path.Base()`: `filepath.Base` of the path. -/
def Path.Base (p : Path) : String := filepath.Base p.path

/-- Method `Path.Ext()`: `filepath.Ext` of the path. -/
def Path.Ext (p : Path) : String := filepath.Ext p.path

/-- Method `Path.String()`. -/
def Path.String (p : Path) : String := p.path

/-- Type `android.Paths` (and `android.WritablePaths`): a slice of paths. -/
abbrev Paths := List Path

/-- Modelled from the spec: `android.OptionalPath`, a path that is either
present (valid) or absent. -/
abbrev OptionalPath := Option Path

/-- Method `OptionalPath.Valid()`. -/
def OptionalPath.Valid (p : OptionalPath) : Bool := p.isSome

/-- Method `OptionalPath.Path()`: the path, a panic when the path is absent. -/
def OptionalPath.Path : OptionalPath → Except String Path
  | some p => .ok p
  | none => .error "Requesting an invalid path"

/-- Method `OptionalPath.String()`: the path string, `""` when absent. -/
def OptionalPath.String : OptionalPath → String
  | some p => p.String
  | none => ""

/-- Function `android.OptionalPathForPath`. -/
def OptionalPathForPath (p : Path) : OptionalPath := some p

end android

namespace rust

open android

/-- The three static rules declared at the top of `rust/builder.go`. -/
inductive Rule where
  | rustc
  | clippyDriver
  | zip
  deriving DecidableEq, Repr

/-- The fields of `android.BuildParams` that `rust/builder.go` sets; `Args` is
the Go `map[string]string` as an association list. -/
structure BuildParams where
  Rule : Rule
  Description : String
  Output : Path
  ImplicitOutputs : Paths
  Inputs : Paths
  Implicits : Paths
  Args : List (String × String)
  deriving DecidableEq, Repr

/-- Lookup of a named argument slot in `Args`. -/
def BuildParams.arg (b : BuildParams) (key : String) : Option String :=
  b.Args.lookup key

/-- Type `RustLibrary`: a resolved crate dependency. -/
structure RustLibrary where
  Path : android.Path
  CrateName : String
  deriving DecidableEq, Repr

/-- Type `RustLibraries`. -/
abbrev RustLibraries := List RustLibrary

/-- The fields of `PathDeps` that `rust/builder.go` reads. -/
structure PathDeps where
  DyLibs : RustLibraries
  RLibs : RustLibraries
  ProcMacros : RustLibraries
  StaticLibs : Paths
  SharedLibs : Paths
  CrtBegin : OptionalPath
  CrtEnd : OptionalPath
  deriving DecidableEq, Repr

/-- The fields of `Flags` that `rust/builder.go` reads. -/
structure Flags where
  GlobalRustFlags : List String
  RustFlags : List String
  GlobalLinkFlags : List String
  LinkFlags : List String
  ClippyFlags : List String
  Coverage : Bool
  Clippy : Bool
  deriving DecidableEq, Repr

/-- What `rust/builder.go` asks of its `ModuleContext` and of the packages around
it: `CrateName` is `ctx.RustModule().CrateName()`, `RustTriple` is
`ctx.toolchain().RustTriple()`, `PathForModuleOut` is
`android.PathForModuleOut(ctx, ·)` and `PwdPrefix` is `cc.PwdPrefix()`. -/
structure ModuleContext where
  CrateName : String
  RustTriple : String
  PathForModuleOut : String → Path
  PwdPrefix : String

/-- Type `buildOutput`; a nil `coverageFile` is `none`. -/
structure buildOutput where
  outputFile : Path
  coverageFile : Option Path
  deriving DecidableEq, Repr

/-- Function `rustLibsToPaths`: the artifact path of every library, in order. -/
def rustLibsToPaths (libs : RustLibraries) : Paths :=
  libs.foldl (fun paths lib => paths ++ [lib.Path]) []

/-- Lines 129-142 of `transformSrctoCrate`: the local `rustcFlags` once the
"Collect rustc flags" section and the sysroot suppression have run. -/
def collectRustcFlags (flags : Flags) (crate_type crate_name targetTriple : String) :
    List String :=
  let rustcFlags : List String := []
  let rustcFlags := rustcFlags ++ flags.GlobalRustFlags
  let rustcFlags := rustcFlags ++ flags.RustFlags
  let rustcFlags := rustcFlags ++ ["--crate-type=" ++ crate_type]
  let rustcFlags :=
    if crate_name ≠ "" then rustcFlags ++ ["--crate-name=" ++ crate_name] else rustcFlags
  let rustcFlags :=
    if targetTriple ≠ "" then rustcFlags ++ ["--target=" ++ targetTriple] else rustcFlags
  -- Suppress an implicit sysroot
  rustcFlags ++ ["--sysroot=/dev/null"]

/-- Lines 136-146 of `transformSrctoCrate`: the local `linkFlags`; the target
entry is appended inside the `targetTriple != ""` block, before the
"Collect linker flags" section. -/
def collectLinkFlags (flags : Flags) (targetTriple : String) : List String :=
  let linkFlags : List String := []
  let linkFlags :=
    if targetTriple ≠ "" then linkFlags ++ ["-target " ++ targetTriple] else linkFlags
  let linkFlags := linkFlags ++ flags.GlobalLinkFlags
  linkFlags ++ flags.LinkFlags

/-- One loop of the "Collect library/crate flags" section: an `--extern` flag
per library appended to `libFlags`. -/
def externFlags (libFlags : List String) (libs : RustLibraries) : List String :=
  libs.foldl
    (fun libFlags lib => libFlags ++ ["--extern " ++ lib.CrateName ++ "=" ++ lib.Path.String])
    libFlags

/-- Lines 148-161 of `transformSrctoCrate`: the local `libFlags`. -/
def collectLibFlags (deps : PathDeps) (linkDirs : List String) : List String :=
  let libFlags : List String := []
  let libFlags := externFlags libFlags deps.RLibs
  let libFlags := externFlags libFlags deps.DyLibs
  let libFlags := externFlags libFlags deps.ProcMacros
  linkDirs.foldl (fun libFlags path => libFlags ++ ["-L " ++ path]) libFlags

/-- Lines 163-171 of `transformSrctoCrate`: the local `implicits` after the
"Collect dependencies" section.  `deps.CrtEnd.Path()` panics when `CrtBegin` is
valid and `CrtEnd` is not. -/
def collectImplicits (deps : PathDeps) : Except String Paths :=
  let implicits : Paths := []
  let implicits := implicits ++ rustLibsToPaths deps.RLibs
  let implicits := implicits ++ rustLibsToPaths deps.DyLibs
  let implicits := implicits ++ rustLibsToPaths deps.ProcMacros
  let implicits := implicits ++ deps.StaticLibs
  let implicits := implicits ++ deps.SharedLibs
  if deps.CrtBegin.Valid then
    match deps.CrtBegin.Path, deps.CrtEnd.Path with
    | .ok crtBegin, .ok crtEnd => .ok (implicits ++ [crtBegin, crtEnd])
    | .error e, _ => .error e
    | .ok _, .error e => .error e
  else .ok implicits

/-- Lines 178-186 of `transformSrctoCrate`: the names handed to
`android.PathForModuleOut` for the `gcno` file and for the `gcda` file. -/
def coverageNames (outputFile : Path) : String × String :=
  if outputFile.Ext ≠ "" then
    (pathtools.ReplaceExtension outputFile.Base "gcno",
     pathtools.ReplaceExtension outputFile.Base "gcda")
  else
    (outputFile.Base ++ ".gcno", outputFile.Base ++ ".gcda")

/-- Line 176 and lines 180-185: the flag appended to `rustcFlags` when coverage
is enabled. -/
def profileEmitFlag (ctx : ModuleContext) (outputFile : Path) : String :=
  -- Provide consistency with cc gcda output, see cc/builder.go init()
  let profileEmitArg := strings.TrimPrefix ctx.PwdPrefix "PWD=" ++ "/"
  "-Z profile-emit=" ++ profileEmitArg ++
    (ctx.PathForModuleOut (coverageNames outputFile).2).String

/-- The local `gcnoFile` of the coverage block. -/
def gcnoFile (ctx : ModuleContext) (outputFile : Path) : Path :=
  ctx.PathForModuleOut (coverageNames outputFile).1

/-- The local `rustcFlags` as passed to both `ctx.Build` calls: the collected
flags, and the profile-emit flag after them when coverage is enabled
(lines 173-190). -/
def finalRustcFlags (ctx : ModuleContext) (flags : Flags) (outputFile : Path)
    (crate_type : String) : List String :=
  let rustcFlags := collectRustcFlags flags crate_type ctx.CrateName ctx.RustTriple
  if flags.Coverage then rustcFlags ++ [profileEmitFlag ctx outputFile] else rustcFlags

/-- The local `clippyFile` (line 193). -/
def clippyFile (ctx : ModuleContext) (outputFile : Path) : Path :=
  ctx.PathForModuleOut (outputFile.Base ++ ".clippy")

/-- Function `transformSrctoCrate`: the returned `buildOutput` and the actions
handed to `ctx.Build`, in emission order. -/
def transformSrctoCrate (ctx : ModuleContext) (main : Path) (deps : PathDeps) (flags : Flags)
    (outputFile : Path) (crate_type : String) (linkDirs : List String) :
    Except String (buildOutput × List BuildParams) :=
  let inputs : Paths := [main]
  let targetTriple := ctx.RustTriple
  let rustcFlags := finalRustcFlags ctx flags outputFile crate_type
  let linkFlags := collectLinkFlags flags targetTriple
  let libFlags := collectLibFlags deps linkDirs
  match collectImplicits deps with
  | .error e => .error e
  | .ok implicits =>
    let implicitOutputs : Paths := if flags.Coverage then [gcnoFile ctx outputFile] else []
    let output : buildOutput :=
      { outputFile := outputFile
        coverageFile := if flags.Coverage then some (gcnoFile ctx outputFile) else none }
    let clippyBuild : List BuildParams :=
      if flags.Clippy then
        [{ Rule := Rule.clippyDriver
           Description := "clippy " ++ main.Rel
           Output := clippyFile ctx outputFile
           ImplicitOutputs := []
           Inputs := inputs
           Implicits := implicits
           Args := [("rustcFlags", strings.Join rustcFlags " "),
                    ("libFlags", strings.Join libFlags " "),
                    ("clippyFlags", strings.Join flags.ClippyFlags " ")] }]
      else []
    -- Declare the clippy build as an implicit dependency of the original crate.
    let implicits := if flags.Clippy then implicits ++ [clippyFile ctx outputFile] else implicits
    let rustcBuild : BuildParams :=
      { Rule := Rule.rustc
        Description := "rustc " ++ main.Rel
        Output := outputFile
        ImplicitOutputs := implicitOutputs
        Inputs := inputs
        Implicits := implicits
        Args := [("rustcFlags", strings.Join rustcFlags " "),
                 ("linkFlags", strings.Join linkFlags " "),
                 ("libFlags", strings.Join libFlags " "),
                 ("crtBegin", deps.CrtBegin.String),
                 ("crtEnd", deps.CrtEnd.String)] }
    .ok (output, clippyBuild ++ [rustcBuild])

/-- Function `TransformSrcToBinary`. -/
def TransformSrcToBinary (ctx : ModuleContext) (mainSrc : Path) (deps : PathDeps) (flags : Flags)
    (outputFile : Path) (linkDirs : List String) : Except String (buildOutput × List BuildParams) :=
  let flags := { flags with RustFlags := flags.RustFlags ++ ["-C lto"] }
  transformSrctoCrate ctx mainSrc deps flags outputFile "bin" linkDirs

/-- Function `TransformSrctoRlib`. -/
def TransformSrctoRlib (ctx : ModuleContext) (mainSrc : Path) (deps : PathDeps) (flags : Flags)
    (outputFile : Path) (linkDirs : List String) : Except String (buildOutput × List BuildParams) :=
  transformSrctoCrate ctx mainSrc deps flags outputFile "rlib" linkDirs

/-- Function `TransformSrctoDylib`. -/
def TransformSrctoDylib (ctx : ModuleContext) (mainSrc : Path) (deps : PathDeps) (flags : Flags)
    (outputFile : Path) (linkDirs : List String) : Except String (buildOutput × List BuildParams) :=
  transformSrctoCrate ctx mainSrc deps flags outputFile "dylib" linkDirs

/-- Function `TransformSrctoStatic`. -/
def TransformSrctoStatic (ctx : ModuleContext) (mainSrc : Path) (deps : PathDeps) (flags : Flags)
    (outputFile : Path) (linkDirs : List String) : Except String (buildOutput × List BuildParams) :=
  let flags := { flags with RustFlags := flags.RustFlags ++ ["-C lto"] }
  transformSrctoCrate ctx mainSrc deps flags outputFile "staticlib" linkDirs

/-- Function `TransformSrctoShared`. -/
def TransformSrctoShared (ctx : ModuleContext) (mainSrc : Path) (deps : PathDeps) (flags : Flags)
    (outputFile : Path) (linkDirs : List String) : Except String (buildOutput × List BuildParams) :=
  let flags := { flags with RustFlags := flags.RustFlags ++ ["-C lto"] }
  transformSrctoCrate ctx mainSrc deps flags outputFile "cdylib" linkDirs

/-- Function `TransformSrctoProcMacro`. -/
def TransformSrctoProcMacro (ctx : ModuleContext) (mainSrc : Path) (deps : PathDeps)
    (flags : Flags) (outputFile : Path) (linkDirs : List String) :
    Except String (buildOutput × List BuildParams) :=
  transformSrctoCrate ctx mainSrc deps flags outputFile "proc-macro" linkDirs

/-- Function `TransformCoverageFilesToZip`: the returned optional path and the
actions handed to `ctx.Build`. -/
def TransformCoverageFilesToZip (ctx : ModuleContext) (covFiles : Paths) (baseName : String) :
    OptionalPath × List BuildParams :=
  if covFiles.length > 0 then
    let outputFile := ctx.PathForModuleOut (baseName ++ ".zip")
    (OptionalPathForPath outputFile,
      [{ Rule := Rule.zip
         Description := "zip " ++ outputFile.Base
         Output := outputFile
         ImplicitOutputs := []
         Inputs := covFiles
         Implicits := []
         Args := [] }])
  else (none, [])

/-- The main action of a run: the emitted action whose rule is `rustc`. -/
def mainAction (r : buildOutput × List BuildParams) : Option BuildParams :=
  r.2.find? (fun b => b.Rule = Rule.rustc)

end rust

/-! ## Observations on a run and sample requests -/

namespace rust

open android

/-- The startup and teardown objects when both are present, nothing otherwise. -/
def crtPair (deps : PathDeps) : Paths :=
  match deps.CrtBegin, deps.CrtEnd with
  | some crtBegin, some crtEnd => [crtBegin, crtEnd]
  | _, _ => []

/-- The implicit inputs that come from the dependency set alone. -/
def depImplicits (deps : PathDeps) : Paths :=
  deps.RLibs.map (fun lib => lib.Path) ++ deps.DyLibs.map (fun lib => lib.Path) ++
    deps.ProcMacros.map (fun lib => lib.Path) ++ deps.StaticLibs ++ deps.SharedLibs ++
    crtPair deps

/-- The flags `transformSrctoCrate` itself appends after the caller's global and
per-unit compiler flags. -/
def addedRustcFlags (ctx : ModuleContext) (flags : Flags) (outputFile : Path)
    (crate_type : String) : List String :=
  ["--crate-type=" ++ crate_type] ++
    (if ctx.CrateName = "" then [] else ["--crate-name=" ++ ctx.CrateName]) ++
    (if ctx.RustTriple = "" then [] else ["--target=" ++ ctx.RustTriple]) ++
    ["--sysroot=/dev/null"] ++
    (if flags.Coverage then [profileEmitFlag ctx outputFile] else [])

/-- A run emits the compiler flags `fl`: it succeeds and the `rustcFlags`
argument of its main action is the space-join of `fl`. -/
def EmitsRustcFlags (run : Except String (buildOutput × List BuildParams))
    (fl : List String) : Prop :=
  ∃ r b, run = .ok r ∧ mainAction r = some b ∧
    b.arg "rustcFlags" = some (strings.Join fl " ")

/-- An entry variant as the specification describes it: the orchestrator run
for a crate kind, with `-C lto` appended to the per-unit compiler flags when
link-time optimisation is pre-requested and the flag configuration unchanged
otherwise. -/
def entryVariantSpec (lto : Bool) (kind : String) (ctx : ModuleContext) (mainSrc : Path)
    (deps : PathDeps) (flags : Flags) (outputFile : Path) (linkDirs : List String) :
    Except String (buildOutput × List BuildParams) :=
  transformSrctoCrate ctx mainSrc deps
    (if lto then
      { GlobalRustFlags := flags.GlobalRustFlags
        RustFlags := flags.RustFlags ++ ["-C lto"]
        GlobalLinkFlags := flags.GlobalLinkFlags
        LinkFlags := flags.LinkFlags
        ClippyFlags := flags.ClippyFlags
        Coverage := flags.Coverage
        Clippy := flags.Clippy }
    else flags)
    outputFile kind linkDirs

/-- A module context for a crate `foo` built for a Linux target. -/
def sampleCtx : ModuleContext :=
  { CrateName := "foo"
    RustTriple := "x86_64-unknown-linux-gnu"
    PathForModuleOut := fun name => ⟨"out/soong/.intermediates/foo/" ++ name, name⟩
    PwdPrefix := "PWD=/proc/self/cwd" }

/-- The main source of the sample request. -/
def sampleMain : Path := ⟨"external/foo/src/lib.rs", "src/lib.rs"⟩

/-- A dependency set with one library of every kind and a startup/teardown pair. -/
def sampleDeps : PathDeps :=
  { DyLibs := [⟨⟨"/out/libb.so", "libb.so"⟩, "beta"⟩]
    RLibs := [⟨⟨"/out/liba.rlib", "liba.rlib"⟩, "alpha"⟩]
    ProcMacros := [⟨⟨"/out/libm.so", "libm.so"⟩, "gamma"⟩]
    StaticLibs := [⟨"/out/libs.a", "libs.a"⟩]
    SharedLibs := [⟨"/out/libc.so", "libc.so"⟩]
    CrtBegin := some ⟨"/out/crtbegin.o", "crtbegin.o"⟩
    CrtEnd := some ⟨"/out/crtend.o", "crtend.o"⟩ }

/-- A flag configuration with coverage and lint switched off. -/
def sampleFlags : Flags :=
  { GlobalRustFlags := ["-C debuginfo=2"]
    RustFlags := ["-C opt-level=3"]
    GlobalLinkFlags := ["-Wl,--gc-sections"]
    LinkFlags := ["-lm"]
    ClippyFlags := ["-W clippy::all"]
    Coverage := false
    Clippy := false }

/-- The sample flag configuration with coverage switched on. -/
def sampleCoverageFlags : Flags := { sampleFlags with Coverage := true }

/-- The sample flag configuration with lint switched on. -/
def sampleLintFlags : Flags := { sampleFlags with Clippy := true }

/-- The sample flag configuration with lint and coverage switched on. -/
def sampleLintCoverageFlags : Flags := { sampleFlags with Coverage := true, Clippy := true }

/-- An output file directly inside the module output directory. -/
def sampleOut : Path := ⟨"out/soong/.intermediates/foo/libfoo.rlib", "libfoo.rlib"⟩

/-- An output file in a subdirectory of the module output directory. -/
def sampleNestedOut : Path :=
  ⟨"out/soong/.intermediates/foo/unstripped/libfoo.so", "unstripped/libfoo.so"⟩

end rust

/-! ## Lemmas on the library functions -/

namespace strings

theorem hasPrefix_append_false (p q t : String)
    (h : (q.data.take p.data.length == p.data.take q.data.length) = false) :
    HasPrefix (p ++ t) q = false := by
  unfold HasPrefix
  rw [Bool.eq_false_iff]
  intro hp
  rw [List.isPrefixOf_iff_prefix] at hp
  obtain ⟨u, hu⟩ := hp
  rw [String.data_append] at hu
  have h1 : (q.data ++ u).take (min p.data.length q.data.length) =
      (p.data ++ t.data).take (min p.data.length q.data.length) := by rw [hu]
  rw [List.take_append_of_le_length (Nat.min_le_right _ _),
    List.take_append_of_le_length (Nat.min_le_left _ _)] at h1
  have h2 : q.data.take p.data.length = p.data.take q.data.length := by
    have e1 : q.data.take p.data.length = q.data.take (min p.data.length q.data.length) := by
      rw [List.take_eq_take]; simp
    have e2 : p.data.take q.data.length = p.data.take (min p.data.length q.data.length) := by
      rw [List.take_eq_take]; simp [Nat.min_comm]
    rw [e1, e2, h1]
  rw [h2] at h
  simp at h

theorem ne_append_of_hasPrefix_false (s p t : String) (h : HasPrefix s p = false) :
    s ≠ p ++ t := by
  intro hs
  rw [hs] at h
  unfold HasPrefix at h
  rw [String.data_append] at h
  have hpre : p.data.isPrefixOf (p.data ++ t.data) = true := by
    rw [List.isPrefixOf_iff_prefix]; exact List.prefix_append _ _
  rw [hpre] at h
  exact Bool.noConfusion h

end strings

namespace filepath

theorem extLoop_takeWhile (r acc : List Char) :
    extLoop (r.takeWhile (fun c => c != '/')) acc = extLoop r acc := by
  induction r generalizing acc with
  | nil => rfl
  | cons c cs ih =>
    by_cases h1 : c = '/'
    · subst h1; simp [List.takeWhile, extLoop]
    · by_cases h2 : c = '.'
      · subst h2; simp [List.takeWhile, extLoop]
      · have : (c != '/') = true := by simp [h1]
        simp [List.takeWhile, this, extLoop, h1, h2, ih]

theorem extLoop_append (pre rest acc : List Char)
    (hpre : ∀ c ∈ pre, c ≠ '/' ∧ c ≠ '.') :
    extLoop (pre ++ '.' :: rest) acc = '.' :: (pre.reverse ++ acc) := by
  induction pre generalizing acc with
  | nil => simp [extLoop]
  | cons c cs ih =>
    have hc := hpre c (List.mem_cons_self _ _)
    have hcs : ∀ d ∈ cs, d ≠ '/' ∧ d ≠ '.' := fun d hd => hpre d (List.mem_cons_of_mem _ hd)
    simp [extLoop, hc.1, hc.2, ih _ hcs]

theorem extLoop_spec (r acc : List Char) (h : extLoop r acc ≠ []) :
    ∃ pre post, r = pre ++ '.' :: post ∧ (∀ c ∈ pre, c ≠ '/' ∧ c ≠ '.') ∧
      extLoop r acc = '.' :: (pre.reverse ++ acc) := by
  induction r generalizing acc with
  | nil => simp [extLoop] at h
  | cons c cs ih =>
    by_cases h1 : c = '/'
    · simp [extLoop, h1] at h
    · by_cases h2 : c = '.'
      · subst h2
        exact ⟨[], cs, rfl, by simp, by simp [extLoop]⟩
      · have hstep : extLoop (c :: cs) acc = extLoop cs (c :: acc) := by
          simp [extLoop, h1, h2]
        rw [hstep] at h
        obtain ⟨pre, post, hr, hpre, he⟩ := ih (c :: acc) h
        refine ⟨c :: pre, post, by simp [hr], ?_, ?_⟩
        · intro d hd
          rcases List.mem_cons.mp hd with rfl | hd
          · exact ⟨h1, h2⟩
          · exact hpre d hd
        · rw [hstep, he]; simp

theorem hasSuffix_slash_iff (path : String) :
    strings.HasSuffix path "/" = true ↔ ∃ cs, path.data.reverse = '/' :: cs := by
  unfold strings.HasSuffix List.isSuffixOf
  rw [List.isPrefixOf_iff_prefix]
  have hlit : "/".data.reverse = ['/'] := rfl
  rw [hlit]
  constructor
  · rintro ⟨t, ht⟩
    exact ⟨t, by rw [← ht]; rfl⟩
  · rintro ⟨cs, hcs⟩
    exact ⟨cs, by rw [hcs]; rfl⟩

/-- The extension of a path whose `Ext` is non-empty, read off the path. -/
theorem Ext_spec (path : String) (h : Ext path ≠ "") :
    ∃ stem rest : String, path = stem ++ Ext path ∧ Ext path = "." ++ rest ∧
      '.' ∉ rest.data ∧ '/' ∉ rest.data := by
  have h' : extLoop path.data.reverse [] ≠ [] := by
    intro hnil
    apply h
    unfold Ext
    rw [hnil]
  obtain ⟨pre, post, hr, hpre, he⟩ := extLoop_spec _ _ h'
  have hE : (Ext path).data = '.' :: pre.reverse := by
    unfold Ext
    simp [he]
  have hdata : path.data = post.reverse ++ '.' :: pre.reverse := by
    have := congrArg List.reverse hr
    simpa using this
  refine ⟨⟨post.reverse⟩, ⟨pre.reverse⟩, ?_, ?_, ?_, ?_⟩
  · apply String.ext
    rw [String.data_append, hE, hdata]
  · apply String.ext
    rw [String.data_append, hE]
    rfl
  · intro hm
    exact (hpre _ (List.mem_reverse.mp hm)).2 rfl
  · intro hm
    exact (hpre _ (List.mem_reverse.mp hm)).1 rfl

/-- On a non-empty path that does not end in a slash, the extension of the
path is the extension of its last element. -/
theorem Ext_Base (path : String) (hne : path ≠ "")
    (hslash : strings.HasSuffix path "/" = false) :
    Ext (Base path) = Ext path := by
  have hhead : ∃ c cs, path.data.reverse = c :: cs ∧ c ≠ '/' := by
    cases hr : path.data.reverse with
    | nil =>
      exfalso
      apply hne
      apply String.ext
      simpa using hr
    | cons c cs =>
      refine ⟨c, cs, rfl, ?_⟩
      intro hc
      subst hc
      have := (hasSuffix_slash_iff path).mpr ⟨cs, hr⟩
      rw [this] at hslash
      exact Bool.noConfusion hslash
  obtain ⟨c, cs, hr, hc⟩ := hhead
  have hb : (c == '/') = false := by simp [hc]
  have hb' : (c != '/') = true := by simp [hc]
  have hdrop : path.data.reverse.dropWhile (fun c => c == '/') = path.data.reverse := by
    rw [hr, List.dropWhile_cons, hb]
    rfl
  have htake : (path.data.reverse.takeWhile (fun c => c != '/')).reverse ≠ [] := by
    rw [hr, List.takeWhile_cons, hb']
    simp
  unfold Base
  rw [if_neg hne]
  simp only [hdrop]
  rw [if_neg htake]
  unfold Ext
  simp only [List.reverse_reverse]
  rw [extLoop_takeWhile]

theorem Ext_ne_empty_path (path : String) (h : Ext path ≠ "") :
    path ≠ "" ∧ strings.HasSuffix path "/" = false := by
  constructor
  · intro hp
    subst hp
    exact h rfl
  · rw [Bool.eq_false_iff]
    intro hs
    apply h
    obtain ⟨cs, hcs⟩ := (hasSuffix_slash_iff path).mp hs
    unfold Ext
    rw [hcs]
    rfl

end filepath

namespace strings

theorem TrimSuffix_append (stem suf : String) : TrimSuffix (stem ++ suf) suf = stem := by
  have hs : HasSuffix (stem ++ suf) suf = true := by
    unfold HasSuffix
    rw [List.isSuffixOf_iff_suffix, String.data_append]
    exact List.suffix_append _ _
  unfold TrimSuffix
  rw [if_pos hs]
  apply String.ext
  simp [String.data_append]

end strings

namespace pathtools

theorem ReplaceExtension_of_ext (stem path extension : String)
    (hext : filepath.Ext path ≠ "") (hpath : path = stem ++ filepath.Ext path) :
    ReplaceExtension path extension = stem ++ "." ++ extension := by
  unfold ReplaceExtension
  simp only [hext, ne_eq, not_false_eq_true, if_true]
  have : strings.TrimSuffix path (filepath.Ext path) = stem := by
    conv => lhs; arg 1; rw [hpath]
    exact strings.TrimSuffix_append _ _
  rw [this]

end pathtools

/-! ## Lemmas on the sections of `transformSrctoCrate` -/

namespace rust

open android

theorem foldl_append_singleton {α β : Type} (f : α → β) (l : List α) (init : List β) :
    l.foldl (fun acc x => acc ++ [f x]) init = init ++ l.map f := by
  induction l generalizing init with
  | nil => simp
  | cons x xs ih => simp [List.foldl_cons, ih]

theorem rustLibsToPaths_eq_map (libs : RustLibraries) :
    rustLibsToPaths libs = libs.map (fun lib => lib.Path) := by
  simp [rustLibsToPaths, foldl_append_singleton]

theorem collectImplicits_ok (deps : PathDeps)
    (hcrt : deps.CrtBegin.Valid = true → deps.CrtEnd.Valid = true) :
    collectImplicits deps = .ok (depImplicits deps) := by
  unfold collectImplicits depImplicits crtPair
  cases hb : deps.CrtBegin with
  | none => simp [OptionalPath.Valid, rustLibsToPaths_eq_map]
  | some b =>
    cases he : deps.CrtEnd with
    | none => simp [hb, he, OptionalPath.Valid] at hcrt
    | some e => simp [OptionalPath.Valid, OptionalPath.Path, rustLibsToPaths_eq_map]

theorem collectLibFlags_eq (deps : PathDeps) (linkDirs : List String) :
    collectLibFlags deps linkDirs =
      deps.RLibs.map (fun lib => "--extern " ++ lib.CrateName ++ "=" ++ lib.Path.String) ++
      deps.DyLibs.map (fun lib => "--extern " ++ lib.CrateName ++ "=" ++ lib.Path.String) ++
      deps.ProcMacros.map (fun lib => "--extern " ++ lib.CrateName ++ "=" ++ lib.Path.String) ++
      linkDirs.map (fun dir => "-L " ++ dir) := by
  simp [collectLibFlags, externFlags, foldl_append_singleton]

theorem finalRustcFlags_eq (ctx : ModuleContext) (flags : Flags) (outputFile : Path)
    (crate_type : String) :
    finalRustcFlags ctx flags outputFile crate_type =
      flags.GlobalRustFlags ++ flags.RustFlags ++
        addedRustcFlags ctx flags outputFile crate_type := by
  unfold finalRustcFlags collectRustcFlags addedRustcFlags
  by_cases h1 : ctx.CrateName = "" <;> by_cases h2 : ctx.RustTriple = "" <;>
    cases flags.Coverage <;> simp [h1, h2]

/-- The result of a run whose dependency section does not panic, spelled out. -/
theorem transformSrctoCrate_ok (ctx : ModuleContext) (main : Path) (deps : PathDeps)
    (flags : Flags) (outputFile : Path) (crate_type : String) (linkDirs : List String)
    (hcrt : deps.CrtBegin.Valid = true → deps.CrtEnd.Valid = true) :
    ∃ r lint, transformSrctoCrate ctx main deps flags outputFile crate_type linkDirs = .ok r ∧
      r.1 = { outputFile := outputFile
              coverageFile := if flags.Coverage then some (gcnoFile ctx outputFile) else none } ∧
      r.2 = lint ++
        [{ Rule := Rule.rustc
           Description := "rustc " ++ main.Rel
           Output := outputFile
           ImplicitOutputs := if flags.Coverage then [gcnoFile ctx outputFile] else []
           Inputs := [main]
           Implicits :=
             if flags.Clippy then depImplicits deps ++ [clippyFile ctx outputFile]
             else depImplicits deps
           Args :=
             [("rustcFlags", strings.Join (finalRustcFlags ctx flags outputFile crate_type) " "),
              ("linkFlags", strings.Join (collectLinkFlags flags ctx.RustTriple) " "),
              ("libFlags", strings.Join (collectLibFlags deps linkDirs) " "),
              ("crtBegin", deps.CrtBegin.String),
              ("crtEnd", deps.CrtEnd.String)] }] ∧
      lint = (if flags.Clippy then
        [{ Rule := Rule.clippyDriver
           Description := "clippy " ++ main.Rel
           Output := clippyFile ctx outputFile
           ImplicitOutputs := []
           Inputs := [main]
           Implicits := depImplicits deps
           Args :=
             [("rustcFlags", strings.Join (finalRustcFlags ctx flags outputFile crate_type) " "),
              ("libFlags", strings.Join (collectLibFlags deps linkDirs) " "),
              ("clippyFlags", strings.Join flags.ClippyFlags " ")] }]
        else []) := by
  unfold transformSrctoCrate
  rw [collectImplicits_ok deps hcrt]
  exact ⟨_, _, rfl, rfl, rfl, rfl⟩

/-- The main action of a run whose dependency section does not panic. -/
theorem mainAction_ok (ctx : ModuleContext) (main : Path) (deps : PathDeps) (flags : Flags)
    (outputFile : Path) (crate_type : String) (linkDirs : List String)
    (hcrt : deps.CrtBegin.Valid = true → deps.CrtEnd.Valid = true) :
    ∃ r, transformSrctoCrate ctx main deps flags outputFile crate_type linkDirs = .ok r ∧
      mainAction r = some
        { Rule := Rule.rustc
          Description := "rustc " ++ main.Rel
          Output := outputFile
          ImplicitOutputs := if flags.Coverage then [gcnoFile ctx outputFile] else []
          Inputs := [main]
          Implicits :=
            if flags.Clippy then depImplicits deps ++ [clippyFile ctx outputFile]
            else depImplicits deps
          Args :=
            [("rustcFlags", strings.Join (finalRustcFlags ctx flags outputFile crate_type) " "),
             ("linkFlags", strings.Join (collectLinkFlags flags ctx.RustTriple) " "),
             ("libFlags", strings.Join (collectLibFlags deps linkDirs) " "),
             ("crtBegin", deps.CrtBegin.String),
             ("crtEnd", deps.CrtEnd.String)] } := by
  obtain ⟨r, lint, hr, _, h2, hl⟩ :=
    transformSrctoCrate_ok ctx main deps flags outputFile crate_type linkDirs hcrt
  refine ⟨r, hr, ?_⟩
  unfold mainAction
  rw [h2, hl]
  cases flags.Clippy <;> simp [List.find?]

theorem emitsRustcFlags_ok (ctx : ModuleContext) (main : Path) (deps : PathDeps) (flags : Flags)
    (outputFile : Path) (crate_type : String) (linkDirs : List String)
    (hcrt : deps.CrtBegin.Valid = true → deps.CrtEnd.Valid = true) :
    EmitsRustcFlags (transformSrctoCrate ctx main deps flags outputFile crate_type linkDirs)
      (finalRustcFlags ctx flags outputFile crate_type) := by
  obtain ⟨r, hr, hm⟩ := mainAction_ok ctx main deps flags outputFile crate_type linkDirs hcrt
  exact ⟨r, _, hr, hm, rfl⟩

/-! ## Compiler and linker flags -/

/-- C1: with coverage disabled the `rustcFlags` argument of the main action is
the space-join of: global compiler flags, per-unit compiler flags,
`--crate-type=<kind>`, `--crate-name=<name>` when the crate name is non-empty,
`--target=<triple>` when the target triple is non-empty, `--sysroot=/dev/null`,
the input lists kept in their order. -/
theorem transformSrctoCrate_rustcFlags_without_coverage (ctx : ModuleContext) (main : Path)
    (deps : PathDeps) (flags : Flags) (outputFile : Path) (crate_type : String)
    (linkDirs : List String) (hcov : flags.Coverage = false)
    (hcrt : deps.CrtBegin.Valid = true → deps.CrtEnd.Valid = true) :
    ∃ r b, transformSrctoCrate ctx main deps flags outputFile crate_type linkDirs = .ok r ∧
      mainAction r = some b ∧
      b.arg "rustcFlags" = some (strings.Join
        (flags.GlobalRustFlags ++ flags.RustFlags ++ ["--crate-type=" ++ crate_type] ++
          (if ctx.CrateName = "" then [] else ["--crate-name=" ++ ctx.CrateName]) ++
          (if ctx.RustTriple = "" then [] else ["--target=" ++ ctx.RustTriple]) ++
          ["--sysroot=/dev/null"]) " ") := by
  obtain ⟨r, hr, hm⟩ := mainAction_ok ctx main deps flags outputFile crate_type linkDirs hcrt
  refine ⟨r, _, hr, hm, ?_⟩
  simp only [BuildParams.arg, List.lookup]
  rw [finalRustcFlags_eq]
  simp [addedRustcFlags, hcov]

/-- C1, at the sample request. -/
theorem transformSrctoCrate_rustcFlags_without_coverage_witness :
    sampleFlags.Coverage = false ∧
    (sampleDeps.CrtBegin.Valid = true → sampleDeps.CrtEnd.Valid = true) ∧
    ∃ r b, transformSrctoCrate sampleCtx sampleMain sampleDeps sampleFlags sampleOut "rlib"
        ["out/lib"] = .ok r ∧
      mainAction r = some b ∧
      b.arg "rustcFlags" = some (strings.Join
        (sampleFlags.GlobalRustFlags ++ sampleFlags.RustFlags ++ ["--crate-type=" ++ "rlib"] ++
          (if sampleCtx.CrateName = "" then [] else ["--crate-name=" ++ sampleCtx.CrateName]) ++
          (if sampleCtx.RustTriple = "" then [] else ["--target=" ++ sampleCtx.RustTriple]) ++
          ["--sysroot=/dev/null"]) " ") :=
  ⟨rfl, fun _ => rfl,
    transformSrctoCrate_rustcFlags_without_coverage sampleCtx sampleMain sampleDeps sampleFlags
      sampleOut "rlib" ["out/lib"] rfl (fun _ => rfl)⟩

/-- C2, as stated, fails: with target triple `x86_64-unknown-linux-gnu`, global
link flags `-Wl,--gc-sections` and per-unit link flags `-lm`, the `linkFlags`
argument starts with the target entry instead of ending with it. -/
theorem linkFlags_target_last_counterexample :
    ∃ r b, transformSrctoCrate sampleCtx sampleMain sampleDeps sampleFlags sampleOut "rlib"
        [] = .ok r ∧
      mainAction r = some b ∧
      b.arg "linkFlags" = some "-target x86_64-unknown-linux-gnu -Wl,--gc-sections -lm" ∧
      b.arg "linkFlags" ≠ some (strings.Join
        (sampleFlags.GlobalLinkFlags ++ sampleFlags.LinkFlags ++
          (if sampleCtx.RustTriple = "" then [] else ["-target " ++ sampleCtx.RustTriple])) " ") := by
  obtain ⟨r, hr, hm⟩ := mainAction_ok sampleCtx sampleMain sampleDeps sampleFlags sampleOut
    "rlib" [] (fun _ => rfl)
  refine ⟨r, _, hr, hm, ?_, ?_⟩
  · simp only [BuildParams.arg, List.lookup]
    decide
  · simp only [BuildParams.arg, List.lookup]
    decide

/-- C2, amended: the `linkFlags` argument of the main action is the space-join
of the target entry `-target <triple>` (when the triple is non-empty) followed
by the global link flags and then the per-unit link flags. -/
theorem transformSrctoCrate_linkFlags_target_first (ctx : ModuleContext) (main : Path)
    (deps : PathDeps) (flags : Flags) (outputFile : Path) (crate_type : String)
    (linkDirs : List String)
    (hcrt : deps.CrtBegin.Valid = true → deps.CrtEnd.Valid = true) :
    ∃ r b, transformSrctoCrate ctx main deps flags outputFile crate_type linkDirs = .ok r ∧
      mainAction r = some b ∧
      b.arg "linkFlags" = some (strings.Join
        ((if ctx.RustTriple = "" then [] else ["-target " ++ ctx.RustTriple]) ++
          flags.GlobalLinkFlags ++ flags.LinkFlags) " ") := by
  obtain ⟨r, hr, hm⟩ := mainAction_ok ctx main deps flags outputFile crate_type linkDirs hcrt
  refine ⟨r, _, hr, hm, ?_⟩
  simp only [BuildParams.arg, List.lookup, collectLinkFlags]
  by_cases h : ctx.RustTriple = "" <;> simp [h]

/-- C2 amended, at the sample request. -/
theorem transformSrctoCrate_linkFlags_target_first_witness :
    (sampleDeps.CrtBegin.Valid = true → sampleDeps.CrtEnd.Valid = true) ∧
    ∃ r b, transformSrctoCrate sampleCtx sampleMain sampleDeps sampleFlags sampleOut "dylib"
        [] = .ok r ∧
      mainAction r = some b ∧
      b.arg "linkFlags" = some (strings.Join
        ((if sampleCtx.RustTriple = "" then [] else ["-target " ++ sampleCtx.RustTriple]) ++
          sampleFlags.GlobalLinkFlags ++ sampleFlags.LinkFlags) " ") :=
  ⟨fun _ => rfl,
    transformSrctoCrate_linkFlags_target_first sampleCtx sampleMain sampleDeps sampleFlags
      sampleOut "dylib" [] (fun _ => rfl)⟩

theorem lto_not_mem_addedRustcFlags (ctx : ModuleContext) (flags : Flags) (outputFile : Path)
    (crate_type : String) : "-C lto" ∉ addedRustcFlags ctx flags outputFile crate_type := by
  have h1 : "-C lto" ≠ "--crate-type=" ++ crate_type :=
    strings.ne_append_of_hasPrefix_false _ _ _ (by decide)
  have h2 : "-C lto" ≠ "--crate-name=" ++ ctx.CrateName :=
    strings.ne_append_of_hasPrefix_false _ _ _ (by decide)
  have h3 : "-C lto" ≠ "--target=" ++ ctx.RustTriple :=
    strings.ne_append_of_hasPrefix_false _ _ _ (by decide)
  have h4 : "-C lto" ≠ "--sysroot=/dev/null" := by decide
  have h5 : "-C lto" ≠ profileEmitFlag ctx outputFile := by
    unfold profileEmitFlag
    simp only [String.append_assoc]
    exact strings.ne_append_of_hasPrefix_false _ _ _ (by decide)
  unfold addedRustcFlags
  by_cases c1 : ctx.CrateName = "" <;> by_cases c2 : ctx.RustTriple = "" <;>
    cases flags.Coverage <;> simp [c1, c2, h1, h2, h3, h4, h5]

/-! ## Link-time optimisation by entry point -/

/-- C3, as stated, fails: `TransformSrctoRlib` called with per-unit compiler
flags `["-C lto"]` emits compiler flags that contain `-C lto`. -/
theorem rlib_without_lto_counterexample :
    EmitsRustcFlags
      (TransformSrctoRlib sampleCtx sampleMain sampleDeps
        { sampleFlags with RustFlags := ["-C lto"] } sampleOut [])
      (finalRustcFlags sampleCtx { sampleFlags with RustFlags := ["-C lto"] } sampleOut "rlib") ∧
    finalRustcFlags sampleCtx { sampleFlags with RustFlags := ["-C lto"] } sampleOut "rlib" =
      ["-C debuginfo=2", "-C lto", "--crate-type=rlib", "--crate-name=foo",
        "--target=x86_64-unknown-linux-gnu", "--sysroot=/dev/null"] ∧
    "-C lto" ∈
      finalRustcFlags sampleCtx { sampleFlags with RustFlags := ["-C lto"] } sampleOut "rlib" :=
  ⟨emitsRustcFlags_ok _ _ _ _ _ _ _ (fun _ => rfl), by decide, by decide⟩

/-- C3, amended: the compiler flags emitted by `TransformSrcToBinary`,
`TransformSrctoStatic` and `TransformSrctoShared` contain `-C lto`; those
emitted by `TransformSrctoRlib`, `TransformSrctoDylib` and
`TransformSrctoProcMacro` contain `-C lto` exactly when the caller's global or
per-unit compiler flags do (these entry points add none). -/
theorem lto_flag_by_entry_point (ctx : ModuleContext) (main : Path) (deps : PathDeps)
    (flags : Flags) (outputFile : Path) (linkDirs : List String)
    (hcrt : deps.CrtBegin.Valid = true → deps.CrtEnd.Valid = true) :
    (∃ fl, EmitsRustcFlags (TransformSrcToBinary ctx main deps flags outputFile linkDirs) fl ∧
      fl = finalRustcFlags ctx { flags with RustFlags := flags.RustFlags ++ ["-C lto"] }
        outputFile "bin" ∧ "-C lto" ∈ fl) ∧
    (∃ fl, EmitsRustcFlags (TransformSrctoStatic ctx main deps flags outputFile linkDirs) fl ∧
      fl = finalRustcFlags ctx { flags with RustFlags := flags.RustFlags ++ ["-C lto"] }
        outputFile "staticlib" ∧ "-C lto" ∈ fl) ∧
    (∃ fl, EmitsRustcFlags (TransformSrctoShared ctx main deps flags outputFile linkDirs) fl ∧
      fl = finalRustcFlags ctx { flags with RustFlags := flags.RustFlags ++ ["-C lto"] }
        outputFile "cdylib" ∧ "-C lto" ∈ fl) ∧
    (∃ fl, EmitsRustcFlags (TransformSrctoRlib ctx main deps flags outputFile linkDirs) fl ∧
      fl = finalRustcFlags ctx flags outputFile "rlib" ∧
      ("-C lto" ∈ fl ↔ "-C lto" ∈ flags.GlobalRustFlags ∨ "-C lto" ∈ flags.RustFlags)) ∧
    (∃ fl, EmitsRustcFlags (TransformSrctoDylib ctx main deps flags outputFile linkDirs) fl ∧
      fl = finalRustcFlags ctx flags outputFile "dylib" ∧
      ("-C lto" ∈ fl ↔ "-C lto" ∈ flags.GlobalRustFlags ∨ "-C lto" ∈ flags.RustFlags)) ∧
    (∃ fl, EmitsRustcFlags (TransformSrctoProcMacro ctx main deps flags outputFile linkDirs) fl ∧
      fl = finalRustcFlags ctx flags outputFile "proc-macro" ∧
      ("-C lto" ∈ fl ↔ "-C lto" ∈ flags.GlobalRustFlags ∨ "-C lto" ∈ flags.RustFlags)) := by
  have hyes : ∀ kind, "-C lto" ∈
      finalRustcFlags ctx { flags with RustFlags := flags.RustFlags ++ ["-C lto"] }
        outputFile kind := by
    intro kind
    rw [finalRustcFlags_eq]
    simp
  have hno : ∀ kind, ("-C lto" ∈ finalRustcFlags ctx flags outputFile kind ↔
      "-C lto" ∈ flags.GlobalRustFlags ∨ "-C lto" ∈ flags.RustFlags) := by
    intro kind
    rw [finalRustcFlags_eq]
    have := lto_not_mem_addedRustcFlags ctx flags outputFile kind
    simp [List.mem_append, this]
  exact ⟨⟨_, emitsRustcFlags_ok _ _ _ _ _ _ _ hcrt, rfl, hyes _⟩,
    ⟨_, emitsRustcFlags_ok _ _ _ _ _ _ _ hcrt, rfl, hyes _⟩,
    ⟨_, emitsRustcFlags_ok _ _ _ _ _ _ _ hcrt, rfl, hyes _⟩,
    ⟨_, emitsRustcFlags_ok _ _ _ _ _ _ _ hcrt, rfl, hno _⟩,
    ⟨_, emitsRustcFlags_ok _ _ _ _ _ _ _ hcrt, rfl, hno _⟩,
    ⟨_, emitsRustcFlags_ok _ _ _ _ _ _ _ hcrt, rfl, hno _⟩⟩

/-- C3 amended, at the sample request. -/
theorem lto_flag_by_entry_point_witness :
    (sampleDeps.CrtBegin.Valid = true → sampleDeps.CrtEnd.Valid = true) ∧
    ((∃ fl,
      EmitsRustcFlags
        (TransformSrcToBinary sampleCtx sampleMain sampleDeps sampleFlags sampleOut ["out/lib"]) fl ∧
      fl = finalRustcFlags sampleCtx
        { sampleFlags with RustFlags := sampleFlags.RustFlags ++ ["-C lto"] } sampleOut "bin" ∧
      "-C lto" ∈ fl) ∧
    (∃ fl,
      EmitsRustcFlags
        (TransformSrctoStatic sampleCtx sampleMain sampleDeps sampleFlags sampleOut ["out/lib"]) fl ∧
      fl = finalRustcFlags sampleCtx
        { sampleFlags with RustFlags := sampleFlags.RustFlags ++ ["-C lto"] } sampleOut "staticlib" ∧
      "-C lto" ∈ fl) ∧
    (∃ fl,
      EmitsRustcFlags
        (TransformSrctoShared sampleCtx sampleMain sampleDeps sampleFlags sampleOut ["out/lib"]) fl ∧
      fl = finalRustcFlags sampleCtx
        { sampleFlags with RustFlags := sampleFlags.RustFlags ++ ["-C lto"] } sampleOut "cdylib" ∧
      "-C lto" ∈ fl) ∧
    (∃ fl,
      EmitsRustcFlags
        (TransformSrctoRlib sampleCtx sampleMain sampleDeps sampleFlags sampleOut ["out/lib"]) fl ∧
      fl = finalRustcFlags sampleCtx sampleFlags sampleOut "rlib" ∧
      ("-C lto" ∈ fl ↔
        "-C lto" ∈ sampleFlags.GlobalRustFlags ∨ "-C lto" ∈ sampleFlags.RustFlags)) ∧
    (∃ fl,
      EmitsRustcFlags
        (TransformSrctoDylib sampleCtx sampleMain sampleDeps sampleFlags sampleOut ["out/lib"]) fl ∧
      fl = finalRustcFlags sampleCtx sampleFlags sampleOut "dylib" ∧
      ("-C lto" ∈ fl ↔
        "-C lto" ∈ sampleFlags.GlobalRustFlags ∨ "-C lto" ∈ sampleFlags.RustFlags)) ∧
    (∃ fl,
      EmitsRustcFlags
        (TransformSrctoProcMacro sampleCtx sampleMain sampleDeps sampleFlags sampleOut
          ["out/lib"]) fl ∧
      fl = finalRustcFlags sampleCtx sampleFlags sampleOut "proc-macro" ∧
      ("-C lto" ∈ fl ↔
        "-C lto" ∈ sampleFlags.GlobalRustFlags ∨ "-C lto" ∈ sampleFlags.RustFlags))) :=
  ⟨fun _ => rfl,
    lto_flag_by_entry_point sampleCtx sampleMain sampleDeps sampleFlags sampleOut ["out/lib"]
      (fun _ => rfl)⟩

/-! ## Library flags and implicit inputs -/

/-- C4: the library flags built by `transformSrctoCrate` are one
`--extern <name>=<path>` per rlib dependency, then per dylib dependency, then
per proc-macro dependency, then one `-L <dir>` per link-search directory, each
group in its input order, and their space-join is the `libFlags` argument of
the main action.  One rlib `(alpha, /out/liba.rlib)` and one dylib
`(beta, /out/libb.so)` with no link directories give
`["--extern alpha=/out/liba.rlib", "--extern beta=/out/libb.so"]`. -/
theorem transformSrctoCrate_libFlags (ctx : ModuleContext) (main : Path) (deps : PathDeps)
    (flags : Flags) (outputFile : Path) (crate_type : String) (linkDirs : List String)
    (hcrt : deps.CrtBegin.Valid = true → deps.CrtEnd.Valid = true) :
    collectLibFlags deps linkDirs =
      deps.RLibs.map (fun lib => "--extern " ++ lib.CrateName ++ "=" ++ lib.Path.String) ++
      deps.DyLibs.map (fun lib => "--extern " ++ lib.CrateName ++ "=" ++ lib.Path.String) ++
      deps.ProcMacros.map (fun lib => "--extern " ++ lib.CrateName ++ "=" ++ lib.Path.String) ++
      linkDirs.map (fun dir => "-L " ++ dir) ∧
    (∃ r b, transformSrctoCrate ctx main deps flags outputFile crate_type linkDirs = .ok r ∧
      mainAction r = some b ∧
      b.arg "libFlags" = some (strings.Join (collectLibFlags deps linkDirs) " ")) ∧
    collectLibFlags
      { DyLibs := [⟨⟨"/out/libb.so", "libb.so"⟩, "beta"⟩]
        RLibs := [⟨⟨"/out/liba.rlib", "liba.rlib"⟩, "alpha"⟩]
        ProcMacros := [], StaticLibs := [], SharedLibs := [], CrtBegin := none, CrtEnd := none }
      [] = ["--extern alpha=/out/liba.rlib", "--extern beta=/out/libb.so"] := by
  refine ⟨collectLibFlags_eq deps linkDirs, ?_, by decide⟩
  obtain ⟨r, hr, hm⟩ := mainAction_ok ctx main deps flags outputFile crate_type linkDirs hcrt
  exact ⟨r, _, hr, hm, rfl⟩

/-- C4, at the sample request with two link-search directories. -/
theorem transformSrctoCrate_libFlags_witness :
    (sampleDeps.CrtBegin.Valid = true → sampleDeps.CrtEnd.Valid = true) ∧
    (collectLibFlags sampleDeps ["out/lib", "out/lib64"] =
      sampleDeps.RLibs.map (fun lib => "--extern " ++ lib.CrateName ++ "=" ++ lib.Path.String) ++
      sampleDeps.DyLibs.map (fun lib => "--extern " ++ lib.CrateName ++ "=" ++ lib.Path.String) ++
      sampleDeps.ProcMacros.map
        (fun lib => "--extern " ++ lib.CrateName ++ "=" ++ lib.Path.String) ++
      ["out/lib", "out/lib64"].map (fun dir => "-L " ++ dir) ∧
    (∃ r b, transformSrctoCrate sampleCtx sampleMain sampleDeps sampleFlags sampleOut "bin"
        ["out/lib", "out/lib64"] = .ok r ∧
      mainAction r = some b ∧
      b.arg "libFlags" =
        some (strings.Join (collectLibFlags sampleDeps ["out/lib", "out/lib64"]) " ")) ∧
    collectLibFlags
      { DyLibs := [⟨⟨"/out/libb.so", "libb.so"⟩, "beta"⟩]
        RLibs := [⟨⟨"/out/liba.rlib", "liba.rlib"⟩, "alpha"⟩]
        ProcMacros := [], StaticLibs := [], SharedLibs := [], CrtBegin := none, CrtEnd := none }
      [] = ["--extern alpha=/out/liba.rlib", "--extern beta=/out/libb.so"]) :=
  ⟨fun _ => rfl,
    transformSrctoCrate_libFlags sampleCtx sampleMain sampleDeps sampleFlags sampleOut "bin"
      ["out/lib", "out/lib64"] (fun _ => rfl)⟩

/-- C5: with lint disabled the implicit inputs of the main action are the rlib
artifact paths, the dylib artifact paths, the proc-macro artifact paths, the
native static-library paths, the native shared-library paths and, when the
startup/teardown pair is present, the startup object and the teardown object,
each group in its input order; the list is the same for every list of
link-search directories. -/
theorem transformSrctoCrate_implicits_without_lint (ctx : ModuleContext) (main : Path)
    (deps : PathDeps) (flags : Flags) (outputFile : Path) (crate_type : String)
    (linkDirs : List String) (hlint : flags.Clippy = false)
    (hcrt : deps.CrtBegin.Valid = true → deps.CrtEnd.Valid = true) :
    (∃ r b, transformSrctoCrate ctx main deps flags outputFile crate_type linkDirs = .ok r ∧
      mainAction r = some b ∧
      b.Implicits =
        deps.RLibs.map (fun lib => lib.Path) ++ deps.DyLibs.map (fun lib => lib.Path) ++
          deps.ProcMacros.map (fun lib => lib.Path) ++ deps.StaticLibs ++ deps.SharedLibs ++
          crtPair deps) ∧
    (∀ otherDirs : List String, ∃ r b r' b',
      transformSrctoCrate ctx main deps flags outputFile crate_type linkDirs = .ok r ∧
      mainAction r = some b ∧
      transformSrctoCrate ctx main deps flags outputFile crate_type otherDirs = .ok r' ∧
      mainAction r' = some b' ∧ b'.Implicits = b.Implicits) := by
  constructor
  · obtain ⟨r, hr, hm⟩ := mainAction_ok ctx main deps flags outputFile crate_type linkDirs hcrt
    refine ⟨r, _, hr, hm, ?_⟩
    simp [hlint, depImplicits]
  · intro otherDirs
    obtain ⟨r, hr, hm⟩ := mainAction_ok ctx main deps flags outputFile crate_type linkDirs hcrt
    obtain ⟨r', hr', hm'⟩ :=
      mainAction_ok ctx main deps flags outputFile crate_type otherDirs hcrt
    exact ⟨r, _, r', _, hr, hm, hr', hm', rfl⟩

/-- C5, at the sample request, whose startup/teardown pair is present. -/
theorem transformSrctoCrate_implicits_without_lint_witness :
    sampleFlags.Clippy = false ∧
    (sampleDeps.CrtBegin.Valid = true → sampleDeps.CrtEnd.Valid = true) ∧
    (∃ r b, transformSrctoCrate sampleCtx sampleMain sampleDeps sampleFlags sampleOut "bin"
        ["/out/liba.rlib"] = .ok r ∧
      mainAction r = some b ∧
      b.Implicits =
        sampleDeps.RLibs.map (fun lib => lib.Path) ++
          sampleDeps.DyLibs.map (fun lib => lib.Path) ++
          sampleDeps.ProcMacros.map (fun lib => lib.Path) ++ sampleDeps.StaticLibs ++
          sampleDeps.SharedLibs ++ crtPair sampleDeps) ∧
    (∀ otherDirs : List String, ∃ r b r' b',
      transformSrctoCrate sampleCtx sampleMain sampleDeps sampleFlags sampleOut "bin"
        ["/out/liba.rlib"] = .ok r ∧
      mainAction r = some b ∧
      transformSrctoCrate sampleCtx sampleMain sampleDeps sampleFlags sampleOut "bin"
        otherDirs = .ok r' ∧
      mainAction r' = some b' ∧ b'.Implicits = b.Implicits) :=
  ⟨rfl, fun _ => rfl,
    transformSrctoCrate_implicits_without_lint sampleCtx sampleMain sampleDeps sampleFlags
      sampleOut "bin" ["/out/liba.rlib"] rfl (fun _ => rfl)⟩

/-! ## Coverage -/

theorem coverageNames_of_ext (outputFile : Path) (h : outputFile.Ext ≠ "") :
    filepath.Ext outputFile.Base = outputFile.Ext ∧
    ∃ stem rest : String, outputFile.Base = stem ++ outputFile.Ext ∧
      outputFile.Ext = "." ++ rest ∧ '.' ∉ rest.data ∧
      coverageNames outputFile = (stem ++ ".gcno", stem ++ ".gcda") := by
  obtain ⟨hne, hslash⟩ := filepath.Ext_ne_empty_path outputFile.path h
  have hbase : filepath.Ext outputFile.Base = outputFile.Ext :=
    filepath.Ext_Base outputFile.path hne hslash
  have hbne : filepath.Ext outputFile.Base ≠ "" := by rw [hbase]; exact h
  obtain ⟨stem, rest, hstem, hrest, hdot, _⟩ := filepath.Ext_spec outputFile.Base hbne
  refine ⟨hbase, stem, rest, ?_, ?_, hdot, ?_⟩
  · rw [← hbase]; exact hstem
  · rw [← hbase]; exact hrest
  · unfold coverageNames
    rw [if_pos h, pathtools.ReplaceExtension_of_ext stem _ _ hbne hstem,
      pathtools.ReplaceExtension_of_ext stem _ _ hbne hstem]
    simp only [String.append_assoc]
    rfl

/-- C6: with coverage enabled the coverage-notes file and the coverage-data
file of a run are the module-output paths of two names derived from the output
file name.  If the output file has a non-empty extension (the suffix of the
name starting at its last dot), the names are the name with that extension
replaced by `.gcno` and by `.gcda`; if it has none, the names are the name with
`.gcno` and `.gcda` appended.  Both `libbar.rlib` and `libbar` derive
`("libbar.gcno", "libbar.gcda")`. -/
theorem coverage_names_by_extension (ctx : ModuleContext) (main : Path) (deps : PathDeps)
    (flags : Flags) (outputFile : Path) (crate_type : String) (linkDirs : List String)
    (hcov : flags.Coverage = true)
    (hcrt : deps.CrtBegin.Valid = true → deps.CrtEnd.Valid = true) :
    (∃ r b, transformSrctoCrate ctx main deps flags outputFile crate_type linkDirs = .ok r ∧
      mainAction r = some b ∧
      r.1.coverageFile = some (ctx.PathForModuleOut (coverageNames outputFile).1) ∧
      b.arg "rustcFlags" = some (strings.Join
        (collectRustcFlags flags crate_type ctx.CrateName ctx.RustTriple ++
          ["-Z profile-emit=" ++ (strings.TrimPrefix ctx.PwdPrefix "PWD=" ++ "/") ++
            (ctx.PathForModuleOut (coverageNames outputFile).2).String]) " ")) ∧
    (outputFile.Ext ≠ "" →
      filepath.Ext outputFile.Base = outputFile.Ext ∧
      ∃ stem rest : String, outputFile.Base = stem ++ outputFile.Ext ∧
        outputFile.Ext = "." ++ rest ∧ '.' ∉ rest.data ∧
        coverageNames outputFile = (stem ++ ".gcno", stem ++ ".gcda")) ∧
    (outputFile.Ext = "" →
      coverageNames outputFile = (outputFile.Base ++ ".gcno", outputFile.Base ++ ".gcda")) ∧
    (outputFile.path ≠ "" → strings.HasSuffix outputFile.path "/" = false →
      filepath.Ext outputFile.Base = outputFile.Ext) ∧
    coverageNames ⟨"libbar.rlib", "libbar.rlib"⟩ = ("libbar.gcno", "libbar.gcda") ∧
    coverageNames ⟨"libbar", "libbar"⟩ = ("libbar.gcno", "libbar.gcda") := by
  refine ⟨?_, coverageNames_of_ext outputFile, ?_, ?_, by decide, by decide⟩
  · obtain ⟨r, lint, hr, h1, _, _⟩ :=
      transformSrctoCrate_ok ctx main deps flags outputFile crate_type linkDirs hcrt
    obtain ⟨r', hr', hm⟩ := mainAction_ok ctx main deps flags outputFile crate_type linkDirs hcrt
    rw [hr] at hr'
    injection hr' with hr'
    subst hr'
    refine ⟨r, _, hr, hm, ?_, ?_⟩
    · rw [h1]; simp [hcov, gcnoFile]
    · simp only [BuildParams.arg, List.lookup, finalRustcFlags, hcov, profileEmitFlag]
      rfl
  · intro h
    unfold coverageNames
    rw [if_neg (not_not.mpr h)]
  · intro hne hslash
    exact filepath.Ext_Base outputFile.path hne hslash

/-- C6, at the sample request with coverage switched on. -/
theorem coverage_names_by_extension_witness :
    sampleCoverageFlags.Coverage = true ∧
    (sampleDeps.CrtBegin.Valid = true → sampleDeps.CrtEnd.Valid = true) ∧
    ((∃ r b,
      transformSrctoCrate sampleCtx sampleMain sampleDeps sampleCoverageFlags sampleOut "rlib"
        [] = .ok r ∧
      mainAction r = some b ∧
      r.1.coverageFile = some (sampleCtx.PathForModuleOut (coverageNames sampleOut).1) ∧
      b.arg "rustcFlags" = some (strings.Join
        (collectRustcFlags sampleCoverageFlags "rlib" sampleCtx.CrateName sampleCtx.RustTriple ++
          ["-Z profile-emit=" ++ (strings.TrimPrefix sampleCtx.PwdPrefix "PWD=" ++ "/") ++
            (sampleCtx.PathForModuleOut (coverageNames sampleOut).2).String]) " ")) ∧
    (sampleOut.Ext ≠ "" →
      filepath.Ext sampleOut.Base = sampleOut.Ext ∧
      ∃ stem rest : String, sampleOut.Base = stem ++ sampleOut.Ext ∧
        sampleOut.Ext = "." ++ rest ∧ '.' ∉ rest.data ∧
        coverageNames sampleOut = (stem ++ ".gcno", stem ++ ".gcda")) ∧
    (sampleOut.Ext = "" →
      coverageNames sampleOut = (sampleOut.Base ++ ".gcno", sampleOut.Base ++ ".gcda")) ∧
    (sampleOut.path ≠ "" → strings.HasSuffix sampleOut.path "/" = false →
      filepath.Ext sampleOut.Base = sampleOut.Ext) ∧
    coverageNames ⟨"libbar.rlib", "libbar.rlib"⟩ = ("libbar.gcno", "libbar.gcda") ∧
    coverageNames ⟨"libbar", "libbar"⟩ = ("libbar.gcno", "libbar.gcda")) :=
  ⟨rfl, fun _ => rfl,
    coverage_names_by_extension sampleCtx sampleMain sampleDeps sampleCoverageFlags sampleOut
      "rlib" [] rfl (fun _ => rfl)⟩

theorem profileEmit_not_added_without_coverage (ctx : ModuleContext) (flags : Flags)
    (outputFile : Path) (crate_type : String) (hcov : flags.Coverage = false) :
    ∀ f ∈ addedRustcFlags ctx flags outputFile crate_type,
      strings.HasPrefix f "-Z profile-emit=" = false := by
  have h1 : strings.HasPrefix ("--crate-type=" ++ crate_type) "-Z profile-emit=" = false :=
    strings.hasPrefix_append_false _ _ _ (by decide)
  have h2 : strings.HasPrefix ("--crate-name=" ++ ctx.CrateName) "-Z profile-emit=" = false :=
    strings.hasPrefix_append_false _ _ _ (by decide)
  have h3 : strings.HasPrefix ("--target=" ++ ctx.RustTriple) "-Z profile-emit=" = false :=
    strings.hasPrefix_append_false _ _ _ (by decide)
  have h4 : strings.HasPrefix "--sysroot=/dev/null" "-Z profile-emit=" = false := by decide
  unfold addedRustcFlags
  rw [hcov]
  by_cases c1 : ctx.CrateName = "" <;> by_cases c2 : ctx.RustTriple = "" <;>
    simp [c1, c2, h1, h2, h3, h4]

/-- C7: the returned `buildOutput` carries a coverage file exactly when
coverage is enabled.  When it is enabled the implicit outputs of the main
action are exactly that coverage-notes path; when it is disabled the implicit
outputs are empty and the emitted compiler flags are the caller's flags
followed by flags of which none begins with `-Z profile-emit=`. -/
theorem coverage_file_iff_enabled (ctx : ModuleContext) (main : Path) (deps : PathDeps)
    (flags : Flags) (outputFile : Path) (crate_type : String) (linkDirs : List String)
    (hcrt : deps.CrtBegin.Valid = true → deps.CrtEnd.Valid = true) :
    ∃ r b, transformSrctoCrate ctx main deps flags outputFile crate_type linkDirs = .ok r ∧
      mainAction r = some b ∧
      (r.1.coverageFile.isSome = true ↔ flags.Coverage = true) ∧
      (flags.Coverage = true →
        ∃ gcno, r.1.coverageFile = some gcno ∧ b.ImplicitOutputs = [gcno]) ∧
      (flags.Coverage = false →
        r.1.coverageFile = none ∧ b.ImplicitOutputs = [] ∧
        b.arg "rustcFlags" = some (strings.Join
          (flags.GlobalRustFlags ++ flags.RustFlags ++
            addedRustcFlags ctx flags outputFile crate_type) " ") ∧
        ∀ f ∈ addedRustcFlags ctx flags outputFile crate_type,
          strings.HasPrefix f "-Z profile-emit=" = false) := by
  obtain ⟨r, lint, hr, h1, _, _⟩ :=
    transformSrctoCrate_ok ctx main deps flags outputFile crate_type linkDirs hcrt
  obtain ⟨r', hr', hm⟩ := mainAction_ok ctx main deps flags outputFile crate_type linkDirs hcrt
  rw [hr] at hr'
  injection hr' with hr'
  subst hr'
  refine ⟨r, _, hr, hm, ?_, ?_, ?_⟩
  · rw [h1]; cases flags.Coverage <;> simp
  · intro hcov
    exact ⟨gcnoFile ctx outputFile, by rw [h1]; simp [hcov], by simp [hcov]⟩
  · intro hcov
    refine ⟨by rw [h1]; simp [hcov], by simp [hcov], ?_,
      profileEmit_not_added_without_coverage ctx flags outputFile crate_type hcov⟩
    rw [← finalRustcFlags_eq]
    rfl

/-- C7, at the sample request with coverage switched on. -/
theorem coverage_file_iff_enabled_witness :
    (sampleDeps.CrtBegin.Valid = true → sampleDeps.CrtEnd.Valid = true) ∧
    ∃ r b, transformSrctoCrate sampleCtx sampleMain sampleDeps sampleCoverageFlags sampleOut
        "rlib" [] = .ok r ∧
      mainAction r = some b ∧
      (r.1.coverageFile.isSome = true ↔ sampleCoverageFlags.Coverage = true) ∧
      (sampleCoverageFlags.Coverage = true →
        ∃ gcno, r.1.coverageFile = some gcno ∧ b.ImplicitOutputs = [gcno]) ∧
      (sampleCoverageFlags.Coverage = false →
        r.1.coverageFile = none ∧ b.ImplicitOutputs = [] ∧
        b.arg "rustcFlags" = some (strings.Join
          (sampleCoverageFlags.GlobalRustFlags ++ sampleCoverageFlags.RustFlags ++
            addedRustcFlags sampleCtx sampleCoverageFlags sampleOut "rlib") " ") ∧
        ∀ f ∈ addedRustcFlags sampleCtx sampleCoverageFlags sampleOut "rlib",
          strings.HasPrefix f "-Z profile-emit=" = false) :=
  ⟨fun _ => rfl,
    coverage_file_iff_enabled sampleCtx sampleMain sampleDeps sampleCoverageFlags sampleOut
      "rlib" [] (fun _ => rfl)⟩

/-! ## Lint -/

/-- C8, as stated, fails: for the output file
`out/soong/.intermediates/foo/unstripped/libfoo.so` the lint action writes
`out/soong/.intermediates/foo/libfoo.so.clippy`, which is not the main output
path with `.clippy` appended. -/
theorem lint_output_path_counterexample :
    ∃ r lint b, transformSrctoCrate sampleCtx sampleMain sampleDeps sampleLintFlags
        sampleNestedOut "dylib" [] = .ok r ∧
      r.2 = [lint, b] ∧ lint.Rule = Rule.clippyDriver ∧ b.Rule = Rule.rustc ∧
      b.Output.String = "out/soong/.intermediates/foo/unstripped/libfoo.so" ∧
      lint.Output.String = "out/soong/.intermediates/foo/libfoo.so.clippy" ∧
      lint.Output.String ≠ b.Output.String ++ ".clippy" := by
  obtain ⟨r, lint, hr, _, h2, hl⟩ := transformSrctoCrate_ok sampleCtx sampleMain sampleDeps
    sampleLintFlags sampleNestedOut "dylib" [] (fun _ => rfl)
  refine ⟨r, _, _, hr, by rw [h2, hl]; rfl, rfl, rfl, by decide, by decide, by decide⟩

/-- C8, amended: with lint enabled `transformSrctoCrate` emits a lint action
and then the main action; the lint action's output is the module-output path
named by the base name of the main output with `.clippy` appended, which is
the main output path with `.clippy` appended whenever the main output lies
directly in the module output directory; the implicit inputs of the main
action are the dependency implicit inputs followed by that marker path. -/
theorem lint_action_marker (ctx : ModuleContext) (main : Path) (deps : PathDeps)
    (flags : Flags) (outputFile : Path) (crate_type : String) (linkDirs : List String)
    (hlint : flags.Clippy = true)
    (hcrt : deps.CrtBegin.Valid = true → deps.CrtEnd.Valid = true) :
    ∃ r lint b, transformSrctoCrate ctx main deps flags outputFile crate_type linkDirs = .ok r ∧
      r.2 = [lint, b] ∧ lint.Rule = Rule.clippyDriver ∧ b.Rule = Rule.rustc ∧
      b.Output = outputFile ∧
      lint.Output = ctx.PathForModuleOut (outputFile.Base ++ ".clippy") ∧
      b.Implicits = depImplicits deps ++ [lint.Output] ∧
      lint.Output ∈ b.Implicits ∧
      (∀ dir : String, (∀ name, (ctx.PathForModuleOut name).String = dir ++ name) →
        outputFile.String = dir ++ outputFile.Base →
        lint.Output.String = b.Output.String ++ ".clippy") := by
  obtain ⟨r, lint, hr, _, h2, hl⟩ :=
    transformSrctoCrate_ok ctx main deps flags outputFile crate_type linkDirs hcrt
  rw [hlint] at hl h2
  simp only [if_true] at hl h2
  subst hl
  refine ⟨r, _, _, hr, h2, rfl, rfl, rfl, rfl, rfl, by simp [clippyFile], ?_⟩
  intro dir hdir hout
  show (clippyFile ctx outputFile).String = outputFile.String ++ ".clippy"
  unfold clippyFile
  rw [hdir, hout, String.append_assoc]

/-- C8 amended, at the sample request with lint switched on. -/
theorem lint_action_marker_witness :
    sampleLintFlags.Clippy = true ∧
    (sampleDeps.CrtBegin.Valid = true → sampleDeps.CrtEnd.Valid = true) ∧
    ∃ r lint b, transformSrctoCrate sampleCtx sampleMain sampleDeps sampleLintFlags sampleOut
        "rlib" [] = .ok r ∧
      r.2 = [lint, b] ∧ lint.Rule = Rule.clippyDriver ∧ b.Rule = Rule.rustc ∧
      b.Output = sampleOut ∧
      lint.Output = sampleCtx.PathForModuleOut (sampleOut.Base ++ ".clippy") ∧
      b.Implicits = depImplicits sampleDeps ++ [lint.Output] ∧
      lint.Output ∈ b.Implicits ∧
      (∀ dir : String, (∀ name, (sampleCtx.PathForModuleOut name).String = dir ++ name) →
        sampleOut.String = dir ++ sampleOut.Base →
        lint.Output.String = b.Output.String ++ ".clippy") :=
  ⟨rfl, fun _ => rfl,
    lint_action_marker sampleCtx sampleMain sampleDeps sampleLintFlags sampleOut "rlib" []
      rfl (fun _ => rfl)⟩

/-- C9: `transformSrctoCrate` emits exactly two actions when lint is enabled
and exactly one when it is disabled; the last action emitted is the main
action, with rule `rustc`, inputs `[main]` and the requested output path as its
output, and the returned `buildOutput` has that same output file. -/
theorem transformSrctoCrate_action_count (ctx : ModuleContext) (main : Path) (deps : PathDeps)
    (flags : Flags) (outputFile : Path) (crate_type : String) (linkDirs : List String)
    (hcrt : deps.CrtBegin.Valid = true → deps.CrtEnd.Valid = true) :
    ∃ r b, transformSrctoCrate ctx main deps flags outputFile crate_type linkDirs = .ok r ∧
      r.2.length = (if flags.Clippy then 2 else 1) ∧
      r.2.getLast? = some b ∧ mainAction r = some b ∧
      b.Rule = Rule.rustc ∧ b.Inputs = [main] ∧ b.Output = outputFile ∧
      r.1.outputFile = outputFile := by
  obtain ⟨r, lint, hr, h1, h2, hl⟩ :=
    transformSrctoCrate_ok ctx main deps flags outputFile crate_type linkDirs hcrt
  obtain ⟨r', hr', hm⟩ := mainAction_ok ctx main deps flags outputFile crate_type linkDirs hcrt
  rw [hr] at hr'
  injection hr' with hr'
  subst hr'
  refine ⟨r, _, hr, ?_, ?_, hm, rfl, rfl, rfl, by rw [h1]⟩
  · rw [h2, hl]; cases flags.Clippy <;> simp
  · rw [h2]; simp

/-- C9, at the sample request with lint switched on. -/
theorem transformSrctoCrate_action_count_witness :
    (sampleDeps.CrtBegin.Valid = true → sampleDeps.CrtEnd.Valid = true) ∧
    ∃ r b, transformSrctoCrate sampleCtx sampleMain sampleDeps sampleLintFlags sampleOut
        "bin" [] = .ok r ∧
      r.2.length = (if sampleLintFlags.Clippy then 2 else 1) ∧
      r.2.getLast? = some b ∧ mainAction r = some b ∧
      b.Rule = Rule.rustc ∧ b.Inputs = [sampleMain] ∧ b.Output = sampleOut ∧
      r.1.outputFile = sampleOut :=
  ⟨fun _ => rfl,
    transformSrctoCrate_action_count sampleCtx sampleMain sampleDeps sampleLintFlags sampleOut
      "bin" [] (fun _ => rfl)⟩

/-! ## The crate-name flag -/

theorem crateName_prefix_added_of_empty (ctx : ModuleContext) (flags : Flags)
    (outputFile : Path) (crate_type : String) (hname : ctx.CrateName = "") :
    (addedRustcFlags ctx flags outputFile crate_type).filter
      (fun f => strings.HasPrefix f "--crate-name=") = [] := by
  have h1 : strings.HasPrefix ("--crate-type=" ++ crate_type) "--crate-name=" = false :=
    strings.hasPrefix_append_false _ _ _ (by decide)
  have h3 : strings.HasPrefix ("--target=" ++ ctx.RustTriple) "--crate-name=" = false :=
    strings.hasPrefix_append_false _ _ _ (by decide)
  have h4 : strings.HasPrefix "--sysroot=/dev/null" "--crate-name=" = false := by decide
  have h5 : strings.HasPrefix (profileEmitFlag ctx outputFile) "--crate-name=" = false := by
    unfold profileEmitFlag
    simp only [String.append_assoc]
    exact strings.hasPrefix_append_false _ _ _ (by decide)
  unfold addedRustcFlags
  by_cases c2 : ctx.RustTriple = "" <;> cases flags.Coverage <;>
    simp [hname, c2, List.filter, h1, h3, h4, h5]

theorem crateName_foo_count_added (ctx : ModuleContext) (flags : Flags)
    (outputFile : Path) (crate_type : String) (hname : ctx.CrateName = "foo") :
    (addedRustcFlags ctx flags outputFile crate_type).count "--crate-name=foo" = 1 := by
  have h1 : "--crate-name=foo" ≠ "--crate-type=" ++ crate_type :=
    strings.ne_append_of_hasPrefix_false _ _ _ (by decide)
  have h2 : "--crate-name=" ++ "foo" = "--crate-name=foo" := by decide
  have h3 : "--crate-name=foo" ≠ "--target=" ++ ctx.RustTriple :=
    strings.ne_append_of_hasPrefix_false _ _ _ (by decide)
  have h4 : "--crate-name=foo" ≠ "--sysroot=/dev/null" := by decide
  have h5 : "--crate-name=foo" ≠ profileEmitFlag ctx outputFile := by
    unfold profileEmitFlag
    simp only [String.append_assoc]
    exact strings.ne_append_of_hasPrefix_false _ _ _ (by decide)
  have hne : ("foo" : String) ≠ "" := by decide
  unfold addedRustcFlags
  by_cases c2 : ctx.RustTriple = "" <;> cases flags.Coverage <;>
    simp [hname, hne, c2, List.count_cons, h1.symm, h2, h3.symm, h4.symm, h5.symm]

/-- C10, as stated, fails: with an empty crate name and the per-unit compiler
flag `--crate-name=bar` a flag beginning with `--crate-name=` is emitted, and
with crate name `foo` and the per-unit compiler flag `--crate-name=foo` the
flag `--crate-name=foo` is emitted twice. -/
theorem crate_name_flag_counterexample :
    (({ sampleCtx with CrateName := "" } : ModuleContext).CrateName = "" ∧
      EmitsRustcFlags
        (transformSrctoCrate { sampleCtx with CrateName := "" } sampleMain sampleDeps
          { sampleFlags with RustFlags := ["--crate-name=bar"] } sampleOut "rlib" [])
        ["-C debuginfo=2", "--crate-name=bar", "--crate-type=rlib",
          "--target=x86_64-unknown-linux-gnu", "--sysroot=/dev/null"] ∧
      finalRustcFlags { sampleCtx with CrateName := "" }
          { sampleFlags with RustFlags := ["--crate-name=bar"] } sampleOut "rlib" =
        ["-C debuginfo=2", "--crate-name=bar", "--crate-type=rlib",
          "--target=x86_64-unknown-linux-gnu", "--sysroot=/dev/null"] ∧
      strings.HasPrefix "--crate-name=bar" "--crate-name=" = true) ∧
    (sampleCtx.CrateName = "foo" ∧
      EmitsRustcFlags
        (transformSrctoCrate sampleCtx sampleMain sampleDeps
          { sampleFlags with RustFlags := ["--crate-name=foo"] } sampleOut "rlib" [])
        (finalRustcFlags sampleCtx { sampleFlags with RustFlags := ["--crate-name=foo"] }
          sampleOut "rlib") ∧
      (finalRustcFlags sampleCtx { sampleFlags with RustFlags := ["--crate-name=foo"] }
        sampleOut "rlib").count "--crate-name=foo" = 2) := by
  refine ⟨⟨rfl, ?_, by decide, by decide⟩, rfl,
    emitsRustcFlags_ok _ _ _ _ _ _ _ (fun _ => rfl), by decide⟩
  have h := emitsRustcFlags_ok { sampleCtx with CrateName := "" } sampleMain sampleDeps
    { sampleFlags with RustFlags := ["--crate-name=bar"] } sampleOut "rlib" [] (fun _ => rfl)
  have hf : finalRustcFlags { sampleCtx with CrateName := "" }
      { sampleFlags with RustFlags := ["--crate-name=bar"] } sampleOut "rlib" =
      ["-C debuginfo=2", "--crate-name=bar", "--crate-type=rlib",
        "--target=x86_64-unknown-linux-gnu", "--sysroot=/dev/null"] := by decide
  rw [hf] at h
  exact h

/-- C10, amended: when the crate name is empty, the emitted compiler flags
that begin with `--crate-name=` are exactly those among the caller's global and
per-unit compiler flags (`transformSrctoCrate` adds none); when the crate name
is `foo`, the flag `--crate-name=foo` occurs in the emitted compiler flags
exactly once more than in the caller's flags, so exactly once when the caller
passes none. -/
theorem crate_name_flag_added_once (ctx : ModuleContext) (main : Path) (deps : PathDeps)
    (flags : Flags) (outputFile : Path) (crate_type : String) (linkDirs : List String)
    (hcrt : deps.CrtBegin.Valid = true → deps.CrtEnd.Valid = true) :
    EmitsRustcFlags (transformSrctoCrate ctx main deps flags outputFile crate_type linkDirs)
      (finalRustcFlags ctx flags outputFile crate_type) ∧
    (ctx.CrateName = "" →
      (finalRustcFlags ctx flags outputFile crate_type).filter
          (fun f => strings.HasPrefix f "--crate-name=") =
        (flags.GlobalRustFlags ++ flags.RustFlags).filter
          (fun f => strings.HasPrefix f "--crate-name=")) ∧
    (ctx.CrateName = "foo" →
      (finalRustcFlags ctx flags outputFile crate_type).count "--crate-name=foo" =
        (flags.GlobalRustFlags ++ flags.RustFlags).count "--crate-name=foo" + 1 ∧
      ("--crate-name=foo" ∉ flags.GlobalRustFlags ++ flags.RustFlags →
        (finalRustcFlags ctx flags outputFile crate_type).count "--crate-name=foo" = 1)) := by
  refine ⟨emitsRustcFlags_ok ctx main deps flags outputFile crate_type linkDirs hcrt, ?_, ?_⟩
  · intro hname
    rw [finalRustcFlags_eq, List.filter_append,
      crateName_prefix_added_of_empty ctx flags outputFile crate_type hname, List.append_nil]
  · intro hname
    have hcount : (finalRustcFlags ctx flags outputFile crate_type).count "--crate-name=foo" =
        (flags.GlobalRustFlags ++ flags.RustFlags).count "--crate-name=foo" + 1 := by
      rw [finalRustcFlags_eq, List.count_append,
        crateName_foo_count_added ctx flags outputFile crate_type hname]
    refine ⟨hcount, ?_⟩
    intro hnot
    rw [hcount, List.count_eq_zero_of_not_mem hnot]

/-- C10 amended, at the sample request, whose crate name is `foo`. -/
theorem crate_name_flag_added_once_witness :
    (sampleDeps.CrtBegin.Valid = true → sampleDeps.CrtEnd.Valid = true) ∧
    (EmitsRustcFlags
      (transformSrctoCrate sampleCtx sampleMain sampleDeps sampleFlags sampleOut "rlib" [])
      (finalRustcFlags sampleCtx sampleFlags sampleOut "rlib") ∧
    (sampleCtx.CrateName = "" →
      (finalRustcFlags sampleCtx sampleFlags sampleOut "rlib").filter
          (fun f => strings.HasPrefix f "--crate-name=") =
        (sampleFlags.GlobalRustFlags ++ sampleFlags.RustFlags).filter
          (fun f => strings.HasPrefix f "--crate-name=")) ∧
    (sampleCtx.CrateName = "foo" →
      (finalRustcFlags sampleCtx sampleFlags sampleOut "rlib").count "--crate-name=foo" =
        (sampleFlags.GlobalRustFlags ++ sampleFlags.RustFlags).count "--crate-name=foo" + 1 ∧
      ("--crate-name=foo" ∉ sampleFlags.GlobalRustFlags ++ sampleFlags.RustFlags →
        (finalRustcFlags sampleCtx sampleFlags sampleOut "rlib").count "--crate-name=foo" =
          1))) :=
  ⟨fun _ => rfl,
    crate_name_flag_added_once sampleCtx sampleMain sampleDeps sampleFlags sampleOut "rlib" []
      (fun _ => rfl)⟩

/-! ## The target flags -/

theorem target_prefix_added_of_empty (ctx : ModuleContext) (flags : Flags)
    (outputFile : Path) (crate_type : String) (htriple : ctx.RustTriple = "") :
    (addedRustcFlags ctx flags outputFile crate_type).filter
      (fun f => strings.HasPrefix f "--target=") = [] := by
  have h1 : strings.HasPrefix ("--crate-type=" ++ crate_type) "--target=" = false :=
    strings.hasPrefix_append_false _ _ _ (by decide)
  have h2 : strings.HasPrefix ("--crate-name=" ++ ctx.CrateName) "--target=" = false :=
    strings.hasPrefix_append_false _ _ _ (by decide)
  have h4 : strings.HasPrefix "--sysroot=/dev/null" "--target=" = false := by decide
  have h5 : strings.HasPrefix (profileEmitFlag ctx outputFile) "--target=" = false := by
    unfold profileEmitFlag
    simp only [String.append_assoc]
    exact strings.hasPrefix_append_false _ _ _ (by decide)
  unfold addedRustcFlags
  by_cases c1 : ctx.CrateName = "" <;> cases flags.Coverage <;>
    simp [htriple, c1, List.filter, h1, h2, h4, h5]

/-- C11, as stated, fails: with an empty target triple, the per-unit compiler
flag `--target=aarch64-linux-android` and the per-unit link flag
`-target aarch64-linux-android`, a flag beginning with `--target=` is among the
emitted compiler flags and a flag beginning with `-target ` is among the
emitted linker flags. -/
theorem target_flags_counterexample :
    ({ sampleCtx with RustTriple := "" } : ModuleContext).RustTriple = "" ∧
    (∃ r b,
      transformSrctoCrate { sampleCtx with RustTriple := "" } sampleMain sampleDeps
        { sampleFlags with
          RustFlags := ["--target=aarch64-linux-android"]
          LinkFlags := ["-target aarch64-linux-android"] } sampleOut "rlib" [] = .ok r ∧
      mainAction r = some b ∧
      b.arg "rustcFlags" = some (strings.Join
        ["-C debuginfo=2", "--target=aarch64-linux-android", "--crate-type=rlib",
          "--crate-name=foo", "--sysroot=/dev/null"] " ") ∧
      b.arg "linkFlags" = some (strings.Join
        ["-Wl,--gc-sections", "-target aarch64-linux-android"] " ")) ∧
    finalRustcFlags { sampleCtx with RustTriple := "" }
        { sampleFlags with
          RustFlags := ["--target=aarch64-linux-android"]
          LinkFlags := ["-target aarch64-linux-android"] } sampleOut "rlib" =
      ["-C debuginfo=2", "--target=aarch64-linux-android", "--crate-type=rlib",
        "--crate-name=foo", "--sysroot=/dev/null"] ∧
    collectLinkFlags
        { sampleFlags with
          RustFlags := ["--target=aarch64-linux-android"]
          LinkFlags := ["-target aarch64-linux-android"] } "" =
      ["-Wl,--gc-sections", "-target aarch64-linux-android"] ∧
    strings.HasPrefix "--target=aarch64-linux-android" "--target=" = true ∧
    strings.HasPrefix "-target aarch64-linux-android" "-target " = true := by
  refine ⟨rfl, ?_, by decide, by decide, by decide, by decide⟩
  obtain ⟨r, hr, hm⟩ := mainAction_ok { sampleCtx with RustTriple := "" } sampleMain sampleDeps
    { sampleFlags with
      RustFlags := ["--target=aarch64-linux-android"]
      LinkFlags := ["-target aarch64-linux-android"] } sampleOut "rlib" [] (fun _ => rfl)
  refine ⟨r, _, hr, hm, ?_, ?_⟩
  · simp only [BuildParams.arg, List.lookup]
    decide
  · simp only [BuildParams.arg, List.lookup]
    decide

/-- C11, amended: when the target triple is empty, the emitted compiler flags
that begin with `--target=` are exactly those among the caller's global and
per-unit compiler flags, and the emitted linker flags are exactly the caller's
global link flags followed by the caller's per-unit link flags
(`transformSrctoCrate` adds no target flag to either sequence). -/
theorem target_flags_not_added (ctx : ModuleContext) (main : Path) (deps : PathDeps)
    (flags : Flags) (outputFile : Path) (crate_type : String) (linkDirs : List String)
    (htriple : ctx.RustTriple = "")
    (hcrt : deps.CrtBegin.Valid = true → deps.CrtEnd.Valid = true) :
    (∃ r b, transformSrctoCrate ctx main deps flags outputFile crate_type linkDirs = .ok r ∧
      mainAction r = some b ∧
      b.arg "rustcFlags" =
        some (strings.Join (finalRustcFlags ctx flags outputFile crate_type) " ") ∧
      b.arg "linkFlags" = some (strings.Join (flags.GlobalLinkFlags ++ flags.LinkFlags) " ")) ∧
    (finalRustcFlags ctx flags outputFile crate_type).filter
        (fun f => strings.HasPrefix f "--target=") =
      (flags.GlobalRustFlags ++ flags.RustFlags).filter
        (fun f => strings.HasPrefix f "--target=") ∧
    collectLinkFlags flags ctx.RustTriple = flags.GlobalLinkFlags ++ flags.LinkFlags := by
  have hlink : collectLinkFlags flags ctx.RustTriple =
      flags.GlobalLinkFlags ++ flags.LinkFlags := by
    simp [collectLinkFlags, htriple]
  refine ⟨?_, ?_, hlink⟩
  · obtain ⟨r, hr, hm⟩ := mainAction_ok ctx main deps flags outputFile crate_type linkDirs hcrt
    refine ⟨r, _, hr, hm, rfl, ?_⟩
    rw [← hlink]
    rfl
  · rw [finalRustcFlags_eq, List.filter_append,
      target_prefix_added_of_empty ctx flags outputFile crate_type htriple, List.append_nil]

/-- C11 amended, at the sample request with the target triple emptied. -/
theorem target_flags_not_added_witness :
    ({ sampleCtx with RustTriple := "" } : ModuleContext).RustTriple = "" ∧
    (sampleDeps.CrtBegin.Valid = true → sampleDeps.CrtEnd.Valid = true) ∧
    ((∃ r b,
      transformSrctoCrate { sampleCtx with RustTriple := "" } sampleMain sampleDeps sampleFlags
        sampleOut "rlib" [] = .ok r ∧
      mainAction r = some b ∧
      b.arg "rustcFlags" = some (strings.Join
        (finalRustcFlags { sampleCtx with RustTriple := "" } sampleFlags sampleOut "rlib") " ") ∧
      b.arg "linkFlags" =
        some (strings.Join (sampleFlags.GlobalLinkFlags ++ sampleFlags.LinkFlags) " ")) ∧
    (finalRustcFlags { sampleCtx with RustTriple := "" } sampleFlags sampleOut "rlib").filter
        (fun f => strings.HasPrefix f "--target=") =
      (sampleFlags.GlobalRustFlags ++ sampleFlags.RustFlags).filter
        (fun f => strings.HasPrefix f "--target=") ∧
    collectLinkFlags sampleFlags ({ sampleCtx with RustTriple := "" } : ModuleContext).RustTriple =
      sampleFlags.GlobalLinkFlags ++ sampleFlags.LinkFlags) :=
  ⟨rfl, fun _ => rfl,
    target_flags_not_added { sampleCtx with RustTriple := "" } sampleMain sampleDeps sampleFlags
      sampleOut "rlib" [] rfl (fun _ => rfl)⟩

/-! ## The startup/teardown pair -/

theorem collectImplicits_panic (deps : PathDeps) (hbegin : deps.CrtBegin.Valid = true)
    (hend : deps.CrtEnd.Valid = false) :
    collectImplicits deps = .error "Requesting an invalid path" := by
  unfold collectImplicits
  cases hb : deps.CrtBegin with
  | none => simp [hb, OptionalPath.Valid] at hbegin
  | some b =>
    cases he : deps.CrtEnd with
    | some e => simp [he, OptionalPath.Valid] at hend
    | none => simp [OptionalPath.Valid, OptionalPath.Path]

/-- C12, as stated, fails: with only the teardown object present
`transformSrctoCrate` does not fail; it emits the main action, whose `crtEnd`
argument is the teardown object and whose `crtBegin` argument is empty. -/
theorem only_teardown_counterexample :
    ({ sampleDeps with CrtBegin := none } : PathDeps).CrtBegin.Valid = false ∧
    ({ sampleDeps with CrtBegin := none } : PathDeps).CrtEnd.Valid = true ∧
    ∃ r b, transformSrctoCrate sampleCtx sampleMain { sampleDeps with CrtBegin := none }
        sampleFlags sampleOut "bin" [] = .ok r ∧
      r.2 = [b] ∧ b.Rule = Rule.rustc ∧
      b.arg "crtBegin" = some "" ∧ b.arg "crtEnd" = some "/out/crtend.o" := by
  refine ⟨rfl, rfl, ?_⟩
  obtain ⟨r, lint, hr, _, h2, hl⟩ := transformSrctoCrate_ok sampleCtx sampleMain
    { sampleDeps with CrtBegin := none } sampleFlags sampleOut "bin" [] (fun h => by cases h)
  refine ⟨r, _, hr, by rw [h2, hl]; rfl, rfl, ?_, ?_⟩
  · simp only [BuildParams.arg, List.lookup]
    decide
  · simp only [BuildParams.arg, List.lookup]
    decide

/-- C12, amended: for every dependency set in which the startup object is
present and the teardown object is absent, `transformSrctoCrate` fails with a
fatal error (the panic of `OptionalPath.Path`) and emits no action. -/
theorem only_startup_is_fatal (ctx : ModuleContext) (main : Path) (deps : PathDeps)
    (flags : Flags) (outputFile : Path) (crate_type : String) (linkDirs : List String)
    (hbegin : deps.CrtBegin.Valid = true) (hend : deps.CrtEnd.Valid = false) :
    transformSrctoCrate ctx main deps flags outputFile crate_type linkDirs =
      .error "Requesting an invalid path" ∧
    ∀ r, transformSrctoCrate ctx main deps flags outputFile crate_type linkDirs ≠ .ok r := by
  have h : transformSrctoCrate ctx main deps flags outputFile crate_type linkDirs =
      .error "Requesting an invalid path" := by
    unfold transformSrctoCrate
    rw [collectImplicits_panic deps hbegin hend]
  refine ⟨h, ?_⟩
  intro r hr
  rw [h] at hr
  cases hr

/-- C12 amended, at the sample dependency set without its teardown object. -/
theorem only_startup_is_fatal_witness :
    ({ sampleDeps with CrtEnd := none } : PathDeps).CrtBegin.Valid = true ∧
    ({ sampleDeps with CrtEnd := none } : PathDeps).CrtEnd.Valid = false ∧
    (transformSrctoCrate sampleCtx sampleMain { sampleDeps with CrtEnd := none } sampleLintFlags
        sampleOut "bin" [] = .error "Requesting an invalid path" ∧
    ∀ r, transformSrctoCrate sampleCtx sampleMain { sampleDeps with CrtEnd := none }
        sampleLintFlags sampleOut "bin" [] ≠ .ok r) :=
  ⟨rfl, rfl,
    only_startup_is_fatal sampleCtx sampleMain { sampleDeps with CrtEnd := none } sampleLintFlags
      sampleOut "bin" [] rfl rfl⟩

/-! ## The coverage archive -/

/-- C13: `TransformCoverageFilesToZip` returns an absent path exactly when the
list of coverage files is empty, and for the empty list it emits no action. -/
theorem TransformCoverageFilesToZip_absent_iff_empty (ctx : ModuleContext) (covFiles : Paths)
    (baseName : String) :
    ((TransformCoverageFilesToZip ctx covFiles baseName).1.Valid = false ↔ covFiles = []) ∧
    ((TransformCoverageFilesToZip ctx covFiles baseName).1 = none ↔ covFiles = []) ∧
    TransformCoverageFilesToZip ctx [] baseName = (none, []) := by
  cases covFiles with
  | nil => simp [TransformCoverageFilesToZip, OptionalPath.Valid]
  | cons p ps => simp [TransformCoverageFilesToZip, OptionalPath.Valid, OptionalPathForPath]

/-- C14, as stated, fails: for the coverage files `a.gcno`, `b.gcno`, `a.gcno`
and base name `cov` the inputs of the archive action are the three given
paths, the duplicate included. -/
theorem zip_inputs_deduplicated_counterexample :
    ∃ out b,
      TransformCoverageFilesToZip sampleCtx
        [⟨"a.gcno", "a.gcno"⟩, ⟨"b.gcno", "b.gcno"⟩, ⟨"a.gcno", "a.gcno"⟩] "cov" =
        (some out, [b]) ∧
      b.Rule = Rule.zip ∧ out.Base = "cov.zip" ∧ b.Output = out ∧
      b.Inputs = [⟨"a.gcno", "a.gcno"⟩, ⟨"b.gcno", "b.gcno"⟩, ⟨"a.gcno", "a.gcno"⟩] ∧
      b.Inputs.length = 3 ∧ b.Inputs.length ≠ 2 ∧ ¬ b.Inputs.Nodup :=
  ⟨_, _, rfl, rfl, by decide, rfl, rfl, rfl, by decide, by decide⟩

/-- C14, amended: for every non-empty list of coverage files and every base
name, `TransformCoverageFilesToZip` emits exactly one action, of rule `zip`,
whose single output is the module-output path named by the base name with
`.zip` appended (also the returned path) and whose inputs are the given paths
unchanged, in their order and with their duplicates; for `a.gcno`, `b.gcno`,
`a.gcno` and base name `cov` the inputs have three members. -/
theorem TransformCoverageFilesToZip_action (ctx : ModuleContext) (covFiles : Paths)
    (baseName : String) (hne : covFiles ≠ []) :
    (∃ b, TransformCoverageFilesToZip ctx covFiles baseName =
        (some (ctx.PathForModuleOut (baseName ++ ".zip")), [b]) ∧
      b.Rule = Rule.zip ∧
      b.Output = ctx.PathForModuleOut (baseName ++ ".zip") ∧
      b.ImplicitOutputs = [] ∧
      b.Inputs = covFiles ∧ b.Implicits = []) ∧
    (∃ b, (TransformCoverageFilesToZip ctx
        [⟨"a.gcno", "a.gcno"⟩, ⟨"b.gcno", "b.gcno"⟩, ⟨"a.gcno", "a.gcno"⟩] "cov").2 = [b] ∧
      b.Output = ctx.PathForModuleOut "cov.zip" ∧ b.Inputs.length = 3) := by
  constructor
  · cases covFiles with
    | nil => exact absurd rfl hne
    | cons p ps =>
      have hlen : (p :: ps).length > 0 := by simp
      unfold TransformCoverageFilesToZip
      rw [if_pos hlen]
      exact ⟨_, rfl, rfl, rfl, rfl, rfl, rfl⟩
  · exact ⟨_, rfl, rfl, rfl⟩

/-- C14 amended, at two coverage files of the sample module. -/
theorem TransformCoverageFilesToZip_action_witness :
    ([sampleCtx.PathForModuleOut "libfoo.gcno", sampleCtx.PathForModuleOut "libbar.gcno"] :
      Paths) ≠ [] ∧
    ((∃ b, TransformCoverageFilesToZip sampleCtx
        [sampleCtx.PathForModuleOut "libfoo.gcno", sampleCtx.PathForModuleOut "libbar.gcno"]
        "foo" = (some (sampleCtx.PathForModuleOut ("foo" ++ ".zip")), [b]) ∧
      b.Rule = Rule.zip ∧
      b.Output = sampleCtx.PathForModuleOut ("foo" ++ ".zip") ∧
      b.ImplicitOutputs = [] ∧
      b.Inputs =
        [sampleCtx.PathForModuleOut "libfoo.gcno", sampleCtx.PathForModuleOut "libbar.gcno"] ∧
      b.Implicits = []) ∧
    (∃ b, (TransformCoverageFilesToZip sampleCtx
        [⟨"a.gcno", "a.gcno"⟩, ⟨"b.gcno", "b.gcno"⟩, ⟨"a.gcno", "a.gcno"⟩] "cov").2 = [b] ∧
      b.Output = sampleCtx.PathForModuleOut "cov.zip" ∧ b.Inputs.length = 3)) :=
  ⟨by simp,
    TransformCoverageFilesToZip_action sampleCtx
      [sampleCtx.PathForModuleOut "libfoo.gcno", sampleCtx.PathForModuleOut "libbar.gcno"]
      "foo" (by simp)⟩

/-! ## The crate-type flag -/

theorem crateType_mem_finalRustcFlags (ctx : ModuleContext) (flags : Flags) (outputFile : Path)
    (crate_type : String) :
    "--crate-type=" ++ crate_type ∈ finalRustcFlags ctx flags outputFile crate_type := by
  rw [finalRustcFlags_eq]
  simp [addedRustcFlags]

/-- C15, as stated, fails: `TransformSrcToBinary` emits `--crate-type=bin`, and
for the sample request `--crate-type=binary` is not among its compiler flags. -/
theorem binary_crate_type_counterexample :
    EmitsRustcFlags
      (TransformSrcToBinary sampleCtx sampleMain sampleDeps sampleFlags sampleOut [])
      ["-C debuginfo=2", "-C opt-level=3", "-C lto", "--crate-type=bin", "--crate-name=foo",
        "--target=x86_64-unknown-linux-gnu", "--sysroot=/dev/null"] ∧
    finalRustcFlags sampleCtx
        { sampleFlags with RustFlags := sampleFlags.RustFlags ++ ["-C lto"] } sampleOut "bin" =
      ["-C debuginfo=2", "-C opt-level=3", "-C lto", "--crate-type=bin", "--crate-name=foo",
        "--target=x86_64-unknown-linux-gnu", "--sysroot=/dev/null"] ∧
    "--crate-type=binary" ∉
      ["-C debuginfo=2", "-C opt-level=3", "-C lto", "--crate-type=bin", "--crate-name=foo",
        "--target=x86_64-unknown-linux-gnu", "--sysroot=/dev/null"] := by
  have hf : finalRustcFlags sampleCtx
      { sampleFlags with RustFlags := sampleFlags.RustFlags ++ ["-C lto"] } sampleOut "bin" =
      ["-C debuginfo=2", "-C opt-level=3", "-C lto", "--crate-type=bin", "--crate-name=foo",
        "--target=x86_64-unknown-linux-gnu", "--sysroot=/dev/null"] := by decide
  refine ⟨?_, hf, by decide⟩
  have h := emitsRustcFlags_ok sampleCtx sampleMain sampleDeps
    { sampleFlags with RustFlags := sampleFlags.RustFlags ++ ["-C lto"] } sampleOut "bin" []
    (fun _ => rfl)
  rw [hf] at h
  exact h

/-- C15, amended: each entry point emits a `--crate-type=<kind>` compiler flag
for its own kind, the kinds being `bin`, `rlib`, `dylib`, `staticlib`, `cdylib`
and `proc-macro`: `TransformSrcToBinary` emits `--crate-type=bin`,
`TransformSrctoRlib` `--crate-type=rlib`, `TransformSrctoDylib`
`--crate-type=dylib`, `TransformSrctoStatic` `--crate-type=staticlib`,
`TransformSrctoShared` `--crate-type=cdylib` and `TransformSrctoProcMacro`
`--crate-type=proc-macro`. -/
theorem crate_type_flag_by_entry_point (ctx : ModuleContext) (main : Path) (deps : PathDeps)
    (flags : Flags) (outputFile : Path) (linkDirs : List String)
    (hcrt : deps.CrtBegin.Valid = true → deps.CrtEnd.Valid = true) :
    (∃ fl, EmitsRustcFlags (TransformSrcToBinary ctx main deps flags outputFile linkDirs) fl ∧
      fl = finalRustcFlags ctx { flags with RustFlags := flags.RustFlags ++ ["-C lto"] }
        outputFile "bin" ∧ "--crate-type=bin" ∈ fl) ∧
    (∃ fl, EmitsRustcFlags (TransformSrctoRlib ctx main deps flags outputFile linkDirs) fl ∧
      fl = finalRustcFlags ctx flags outputFile "rlib" ∧ "--crate-type=rlib" ∈ fl) ∧
    (∃ fl, EmitsRustcFlags (TransformSrctoDylib ctx main deps flags outputFile linkDirs) fl ∧
      fl = finalRustcFlags ctx flags outputFile "dylib" ∧ "--crate-type=dylib" ∈ fl) ∧
    (∃ fl, EmitsRustcFlags (TransformSrctoStatic ctx main deps flags outputFile linkDirs) fl ∧
      fl = finalRustcFlags ctx { flags with RustFlags := flags.RustFlags ++ ["-C lto"] }
        outputFile "staticlib" ∧ "--crate-type=staticlib" ∈ fl) ∧
    (∃ fl, EmitsRustcFlags (TransformSrctoShared ctx main deps flags outputFile linkDirs) fl ∧
      fl = finalRustcFlags ctx { flags with RustFlags := flags.RustFlags ++ ["-C lto"] }
        outputFile "cdylib" ∧ "--crate-type=cdylib" ∈ fl) ∧
    (∃ fl, EmitsRustcFlags (TransformSrctoProcMacro ctx main deps flags outputFile linkDirs) fl ∧
      fl = finalRustcFlags ctx flags outputFile "proc-macro" ∧
      "--crate-type=proc-macro" ∈ fl) := by
  have hmem : ∀ (fs : Flags) (kind lit : String), "--crate-type=" ++ kind = lit →
      lit ∈ finalRustcFlags ctx fs outputFile kind := by
    intro fs kind lit hlit
    rw [← hlit]
    exact crateType_mem_finalRustcFlags ctx fs outputFile kind
  exact ⟨⟨_, emitsRustcFlags_ok _ _ _ _ _ _ _ hcrt, rfl, hmem _ _ _ (by decide)⟩,
    ⟨_, emitsRustcFlags_ok _ _ _ _ _ _ _ hcrt, rfl, hmem _ _ _ (by decide)⟩,
    ⟨_, emitsRustcFlags_ok _ _ _ _ _ _ _ hcrt, rfl, hmem _ _ _ (by decide)⟩,
    ⟨_, emitsRustcFlags_ok _ _ _ _ _ _ _ hcrt, rfl, hmem _ _ _ (by decide)⟩,
    ⟨_, emitsRustcFlags_ok _ _ _ _ _ _ _ hcrt, rfl, hmem _ _ _ (by decide)⟩,
    ⟨_, emitsRustcFlags_ok _ _ _ _ _ _ _ hcrt, rfl, hmem _ _ _ (by decide)⟩⟩

/-- C15 amended, at the sample request. -/
theorem crate_type_flag_by_entry_point_witness :
    (sampleDeps.CrtBegin.Valid = true → sampleDeps.CrtEnd.Valid = true) ∧
    ((∃ fl,
      EmitsRustcFlags (TransformSrcToBinary sampleCtx sampleMain sampleDeps sampleFlags sampleOut []) fl ∧
      fl = finalRustcFlags sampleCtx
        { sampleFlags with RustFlags := sampleFlags.RustFlags ++ ["-C lto"] } sampleOut "bin" ∧
      "--crate-type=bin" ∈ fl) ∧
    (∃ fl,
      EmitsRustcFlags (TransformSrctoRlib sampleCtx sampleMain sampleDeps sampleFlags sampleOut []) fl ∧
      fl = finalRustcFlags sampleCtx sampleFlags sampleOut "rlib" ∧ "--crate-type=rlib" ∈ fl) ∧
    (∃ fl,
      EmitsRustcFlags (TransformSrctoDylib sampleCtx sampleMain sampleDeps sampleFlags sampleOut []) fl ∧
      fl = finalRustcFlags sampleCtx sampleFlags sampleOut "dylib" ∧ "--crate-type=dylib" ∈ fl) ∧
    (∃ fl,
      EmitsRustcFlags (TransformSrctoStatic sampleCtx sampleMain sampleDeps sampleFlags sampleOut []) fl ∧
      fl = finalRustcFlags sampleCtx
        { sampleFlags with RustFlags := sampleFlags.RustFlags ++ ["-C lto"] } sampleOut "staticlib" ∧
      "--crate-type=staticlib" ∈ fl) ∧
    (∃ fl,
      EmitsRustcFlags (TransformSrctoShared sampleCtx sampleMain sampleDeps sampleFlags sampleOut []) fl ∧
      fl = finalRustcFlags sampleCtx
        { sampleFlags with RustFlags := sampleFlags.RustFlags ++ ["-C lto"] } sampleOut "cdylib" ∧
      "--crate-type=cdylib" ∈ fl) ∧
    (∃ fl,
      EmitsRustcFlags
        (TransformSrctoProcMacro sampleCtx sampleMain sampleDeps sampleFlags sampleOut []) fl ∧
      fl = finalRustcFlags sampleCtx sampleFlags sampleOut "proc-macro" ∧
      "--crate-type=proc-macro" ∈ fl)) :=
  ⟨fun _ => rfl,
    crate_type_flag_by_entry_point sampleCtx sampleMain sampleDeps sampleFlags sampleOut []
      (fun _ => rfl)⟩

/-! ## The profile-emit flag -/

theorem coverageNames_stem (outputFile : Path) :
    ∃ stem : String,
      (outputFile.Ext ≠ "" → outputFile.Base = stem ++ outputFile.Ext) ∧
      (outputFile.Ext = "" → outputFile.Base = stem) ∧
      coverageNames outputFile = (stem ++ ".gcno", stem ++ ".gcda") := by
  by_cases h : outputFile.Ext = ""
  · refine ⟨outputFile.Base, fun hne => absurd h hne, fun _ => rfl, ?_⟩
    unfold coverageNames
    rw [if_neg (not_not.mpr h)]
  · obtain ⟨_, stem, _, hbase, _, _, hnames⟩ := coverageNames_of_ext outputFile h
    exact ⟨stem, fun _ => hbase, fun he => absurd he h, hnames⟩

theorem collectRustcFlags_sysroot_last (flags : Flags)
    (crate_type crate_name targetTriple : String) :
    ∃ pre, collectRustcFlags flags crate_type crate_name targetTriple =
      pre ++ ["--sysroot=/dev/null"] := by
  unfold collectRustcFlags
  exact ⟨_, rfl⟩

/-- C16: with coverage enabled the profile-emit flag is the last compiler flag,
right after `--sysroot=/dev/null`, and reads `-Z profile-emit=<prefix>/<data path>`
with the prefix `cc.PwdPrefix()` stripped of `PWD=`.  The data path and the
coverage-notes output (the implicit output of the main action and the returned
coverage file) are the module-output paths of `s.gcda` and `s.gcno` for the one
stem `s` of the output file name: the base name of the output file without its
extension, or the whole base name when it has no extension.  Where
module-output paths are a directory followed by the name, the notes path and
the data path of the run are one string followed by `.gcno` and by `.gcda`. -/
theorem profile_emit_flag_last (ctx : ModuleContext) (main : Path) (deps : PathDeps)
    (flags : Flags) (outputFile : Path) (crate_type : String) (linkDirs : List String)
    (hcov : flags.Coverage = true)
    (hcrt : deps.CrtBegin.Valid = true → deps.CrtEnd.Valid = true) :
    ∃ r b stem pre gcno gcda,
      transformSrctoCrate ctx main deps flags outputFile crate_type linkDirs = .ok r ∧
      mainAction r = some b ∧
      (outputFile.Ext ≠ "" → outputFile.Base = stem ++ outputFile.Ext) ∧
      (outputFile.Ext = "" → outputFile.Base = stem) ∧
      gcno = ctx.PathForModuleOut (stem ++ ".gcno") ∧
      gcda = ctx.PathForModuleOut (stem ++ ".gcda") ∧
      b.arg "rustcFlags" =
        some (strings.Join (finalRustcFlags ctx flags outputFile crate_type) " ") ∧
      finalRustcFlags ctx flags outputFile crate_type =
        pre ++ ["--sysroot=/dev/null",
          "-Z profile-emit=" ++ strings.TrimPrefix ctx.PwdPrefix "PWD=" ++ "/" ++ gcda.String] ∧
      (finalRustcFlags ctx flags outputFile crate_type).getLast? =
        some ("-Z profile-emit=" ++ strings.TrimPrefix ctx.PwdPrefix "PWD=" ++ "/" ++
          gcda.String) ∧
      b.ImplicitOutputs = [gcno] ∧
      r.1.coverageFile = some gcno ∧
      (∀ dir : String, (∀ name, (ctx.PathForModuleOut name).String = dir ++ name) →
        gcno.String = (dir ++ stem) ++ ".gcno" ∧ gcda.String = (dir ++ stem) ++ ".gcda" ∧
        (outputFile.Ext ≠ "" → dir ++ outputFile.Base = (dir ++ stem) ++ outputFile.Ext) ∧
        (outputFile.Ext = "" → dir ++ outputFile.Base = dir ++ stem)) := by
  obtain ⟨r, lint, hr, h1, _, _⟩ :=
    transformSrctoCrate_ok ctx main deps flags outputFile crate_type linkDirs hcrt
  obtain ⟨r', hr', hm⟩ := mainAction_ok ctx main deps flags outputFile crate_type linkDirs hcrt
  rw [hr] at hr'
  injection hr' with hr'
  subst hr'
  obtain ⟨stem, hstem1, hstem0, hstem⟩ := coverageNames_stem outputFile
  obtain ⟨pre, hpre⟩ := collectRustcFlags_sysroot_last flags crate_type ctx.CrateName ctx.RustTriple
  have hfinal : finalRustcFlags ctx flags outputFile crate_type =
      pre ++ ["--sysroot=/dev/null",
        "-Z profile-emit=" ++ strings.TrimPrefix ctx.PwdPrefix "PWD=" ++ "/" ++
          (ctx.PathForModuleOut (stem ++ ".gcda")).String] := by
    unfold finalRustcFlags
    simp only [hcov, if_true]
    rw [hpre]
    unfold profileEmitFlag
    rw [hstem]
    simp [String.append_assoc]
  refine ⟨r, _, stem, pre, _, _, hr, hm, hstem1, hstem0, rfl, rfl, rfl, hfinal, ?_, ?_, ?_, ?_⟩
  · rw [hfinal]
    simp
  · simp [hcov, gcnoFile, hstem]
  · rw [h1]
    simp [hcov, gcnoFile, hstem]
  · intro dir hdir
    refine ⟨?_, ?_, ?_, ?_⟩
    · rw [hdir, String.append_assoc]
    · rw [hdir, String.append_assoc]
    · intro hne
      rw [String.append_assoc, ← hstem1 hne]
    · intro he
      rw [hstem0 he]

/-- C16, at the sample request with coverage switched on. -/
theorem profile_emit_flag_last_witness :
    sampleCoverageFlags.Coverage = true ∧
    (sampleDeps.CrtBegin.Valid = true → sampleDeps.CrtEnd.Valid = true) ∧
    ∃ r b stem pre gcno gcda,
      transformSrctoCrate sampleCtx sampleMain sampleDeps sampleCoverageFlags sampleOut "rlib"
        [] = .ok r ∧
      mainAction r = some b ∧
      (sampleOut.Ext ≠ "" → sampleOut.Base = stem ++ sampleOut.Ext) ∧
      (sampleOut.Ext = "" → sampleOut.Base = stem) ∧
      gcno = sampleCtx.PathForModuleOut (stem ++ ".gcno") ∧
      gcda = sampleCtx.PathForModuleOut (stem ++ ".gcda") ∧
      b.arg "rustcFlags" =
        some (strings.Join (finalRustcFlags sampleCtx sampleCoverageFlags sampleOut "rlib") " ") ∧
      finalRustcFlags sampleCtx sampleCoverageFlags sampleOut "rlib" =
        pre ++ ["--sysroot=/dev/null",
          "-Z profile-emit=" ++ strings.TrimPrefix sampleCtx.PwdPrefix "PWD=" ++ "/" ++
            gcda.String] ∧
      (finalRustcFlags sampleCtx sampleCoverageFlags sampleOut "rlib").getLast? =
        some ("-Z profile-emit=" ++ strings.TrimPrefix sampleCtx.PwdPrefix "PWD=" ++ "/" ++
          gcda.String) ∧
      b.ImplicitOutputs = [gcno] ∧
      r.1.coverageFile = some gcno ∧
      (∀ dir : String, (∀ name, (sampleCtx.PathForModuleOut name).String = dir ++ name) →
        gcno.String = (dir ++ stem) ++ ".gcno" ∧ gcda.String = (dir ++ stem) ++ ".gcda" ∧
        (sampleOut.Ext ≠ "" → dir ++ sampleOut.Base = (dir ++ stem) ++ sampleOut.Ext) ∧
        (sampleOut.Ext = "" → dir ++ sampleOut.Base = dir ++ stem)) :=
  ⟨rfl, fun _ => rfl,
    profile_emit_flag_last sampleCtx sampleMain sampleDeps sampleCoverageFlags sampleOut "rlib"
      [] rfl (fun _ => rfl)⟩

/-! ## The lint action -/

/-- C17: with lint enabled the lint action is emitted before the main action;
its rule is `clippyDriver`, its inputs are the inputs of the main action, its
`rustcFlags` and `libFlags` arguments are those of the main action (the
profile-emit flag included when coverage is enabled), its `clippyFlags`
argument is the space-join of the lint flags, it has no implicit outputs, and
the implicit inputs of the main action are those of the lint action followed
by the lint-marker path. -/
theorem lint_action_shares_flags (ctx : ModuleContext) (main : Path) (deps : PathDeps)
    (flags : Flags) (outputFile : Path) (crate_type : String) (linkDirs : List String)
    (hlint : flags.Clippy = true)
    (hcrt : deps.CrtBegin.Valid = true → deps.CrtEnd.Valid = true) :
    ∃ r lint b, transformSrctoCrate ctx main deps flags outputFile crate_type linkDirs = .ok r ∧
      r.2 = [lint, b] ∧ mainAction r = some b ∧
      lint.Rule = Rule.clippyDriver ∧ b.Rule = Rule.rustc ∧
      lint.Inputs = b.Inputs ∧
      lint.arg "rustcFlags" =
        some (strings.Join (finalRustcFlags ctx flags outputFile crate_type) " ") ∧
      lint.arg "rustcFlags" = b.arg "rustcFlags" ∧
      (flags.Coverage = true →
        profileEmitFlag ctx outputFile ∈ finalRustcFlags ctx flags outputFile crate_type) ∧
      lint.arg "libFlags" = some (strings.Join (collectLibFlags deps linkDirs) " ") ∧
      lint.arg "libFlags" = b.arg "libFlags" ∧
      lint.arg "clippyFlags" = some (strings.Join flags.ClippyFlags " ") ∧
      lint.ImplicitOutputs = [] ∧
      b.Implicits = lint.Implicits ++ [lint.Output] := by
  obtain ⟨r, lint, hr, _, h2, hl⟩ :=
    transformSrctoCrate_ok ctx main deps flags outputFile crate_type linkDirs hcrt
  obtain ⟨r', hr', hm⟩ := mainAction_ok ctx main deps flags outputFile crate_type linkDirs hcrt
  rw [hr] at hr'
  injection hr' with hr'
  subst hr'
  rw [hlint] at hl h2 hm
  simp only [if_true] at hl h2 hm
  subst hl
  refine ⟨r, _, _, hr, h2, hm, rfl, rfl, rfl, rfl, rfl, ?_, rfl, rfl, rfl, rfl, rfl⟩
  intro hcov
  unfold finalRustcFlags
  simp [hcov]

/-- C17, at the sample request with lint and coverage switched on. -/
theorem lint_action_shares_flags_witness :
    sampleLintCoverageFlags.Clippy = true ∧
    (sampleDeps.CrtBegin.Valid = true → sampleDeps.CrtEnd.Valid = true) ∧
    ∃ r lint b, transformSrctoCrate sampleCtx sampleMain sampleDeps sampleLintCoverageFlags sampleOut
        "rlib" ["out/lib"] = .ok r ∧
      r.2 = [lint, b] ∧ mainAction r = some b ∧
      lint.Rule = Rule.clippyDriver ∧ b.Rule = Rule.rustc ∧
      lint.Inputs = b.Inputs ∧
      lint.arg "rustcFlags" =
        some (strings.Join (finalRustcFlags sampleCtx sampleLintCoverageFlags sampleOut "rlib") " ") ∧
      lint.arg "rustcFlags" = b.arg "rustcFlags" ∧
      (sampleLintCoverageFlags.Coverage = true →
        profileEmitFlag sampleCtx sampleOut ∈
          finalRustcFlags sampleCtx sampleLintCoverageFlags sampleOut "rlib") ∧
      lint.arg "libFlags" = some (strings.Join (collectLibFlags sampleDeps ["out/lib"]) " ") ∧
      lint.arg "libFlags" = b.arg "libFlags" ∧
      lint.arg "clippyFlags" = some (strings.Join sampleLintCoverageFlags.ClippyFlags " ") ∧
      lint.ImplicitOutputs = [] ∧
      b.Implicits = lint.Implicits ++ [lint.Output] :=
  ⟨rfl, fun _ => rfl,
    lint_action_shares_flags sampleCtx sampleMain sampleDeps sampleLintCoverageFlags sampleOut "rlib"
      ["out/lib"] rfl (fun _ => rfl)⟩

/-! ## Entry variants -/

/-- C18: every entry point is the orchestrator run for its kind and its LTO
pre-request and nothing else: `TransformSrctoRlib`, `TransformSrctoDylib` and
`TransformSrctoProcMacro` produce what `transformSrctoCrate` produces for the
unchanged flag configuration; `TransformSrcToBinary`, `TransformSrctoStatic`
and `TransformSrctoShared` produce what it produces for the configuration whose
per-unit compiler flags are the caller's followed by `-C lto`, so that `-C lto`
sits right after the caller's per-unit compiler flags and right before
`--crate-type=`. -/
theorem entry_points_refine_spec (ctx : ModuleContext) (mainSrc : Path) (deps : PathDeps)
    (flags : Flags) (outputFile : Path) (linkDirs : List String) :
    TransformSrcToBinary ctx mainSrc deps flags outputFile linkDirs =
      entryVariantSpec true "bin" ctx mainSrc deps flags outputFile linkDirs ∧
    TransformSrctoRlib ctx mainSrc deps flags outputFile linkDirs =
      entryVariantSpec false "rlib" ctx mainSrc deps flags outputFile linkDirs ∧
    TransformSrctoDylib ctx mainSrc deps flags outputFile linkDirs =
      entryVariantSpec false "dylib" ctx mainSrc deps flags outputFile linkDirs ∧
    TransformSrctoStatic ctx mainSrc deps flags outputFile linkDirs =
      entryVariantSpec true "staticlib" ctx mainSrc deps flags outputFile linkDirs ∧
    TransformSrctoShared ctx mainSrc deps flags outputFile linkDirs =
      entryVariantSpec true "cdylib" ctx mainSrc deps flags outputFile linkDirs ∧
    TransformSrctoProcMacro ctx mainSrc deps flags outputFile linkDirs =
      entryVariantSpec false "proc-macro" ctx mainSrc deps flags outputFile linkDirs ∧
    (∀ kind, entryVariantSpec false kind ctx mainSrc deps flags outputFile linkDirs =
      transformSrctoCrate ctx mainSrc deps flags outputFile kind linkDirs) ∧
    (∀ kind, ∃ tail,
      finalRustcFlags ctx { flags with RustFlags := flags.RustFlags ++ ["-C lto"] }
          outputFile kind =
        flags.GlobalRustFlags ++ flags.RustFlags ++ ["-C lto", "--crate-type=" ++ kind] ++
          tail) := by
  refine ⟨rfl, rfl, rfl, rfl, rfl, rfl, fun _ => rfl, ?_⟩
  intro kind
  refine ⟨(if ctx.CrateName = "" then [] else ["--crate-name=" ++ ctx.CrateName]) ++
    (if ctx.RustTriple = "" then [] else ["--target=" ++ ctx.RustTriple]) ++
    ["--sysroot=/dev/null"] ++
    (if flags.Coverage then [profileEmitFlag ctx outputFile] else []), ?_⟩
  rw [finalRustcFlags_eq]
  unfold addedRustcFlags
  simp

/-! ## The crate kind is not validated -/

/-- C19, as stated, fails: for the crate kind `wasm`, outside the six kinds,
`transformSrctoCrate` returns normally and emits the main action with
`--crate-type=wasm` among its compiler flags. -/
theorem invalid_crate_kind_counterexample :
    "wasm" ∉ ["bin", "binary", "rlib", "dylib", "staticlib", "cdylib", "proc-macro"] ∧
    ∃ r b, transformSrctoCrate sampleCtx sampleMain sampleDeps sampleFlags sampleOut "wasm"
        [] = .ok r ∧
      r.2 = [b] ∧ b.Rule = Rule.rustc ∧
      b.arg "rustcFlags" = some (strings.Join
        ["-C debuginfo=2", "-C opt-level=3", "--crate-type=wasm", "--crate-name=foo",
          "--target=x86_64-unknown-linux-gnu", "--sysroot=/dev/null"] " ") := by
  refine ⟨by decide, ?_⟩
  obtain ⟨r, lint, hr, _, h2, hl⟩ := transformSrctoCrate_ok sampleCtx sampleMain sampleDeps
    sampleFlags sampleOut "wasm" [] (fun _ => rfl)
  refine ⟨r, _, hr, by rw [h2, hl]; rfl, rfl, ?_⟩
  simp only [BuildParams.arg, List.lookup]
  decide

/-- C19, amended: `transformSrctoCrate` does not validate the crate kind; for
every crate-kind string it returns normally and emits its main action with
`--crate-type=<kind>` among the compiler flags.  Kinds outside the six are
kept out by its callers alone: each entry point passes one of `bin`, `rlib`,
`dylib`, `staticlib`, `cdylib`, `proc-macro`. -/
theorem crate_kind_not_validated (ctx : ModuleContext) (main : Path) (deps : PathDeps)
    (flags : Flags) (outputFile : Path) (crate_type : String) (linkDirs : List String)
    (hcrt : deps.CrtBegin.Valid = true → deps.CrtEnd.Valid = true) :
    (∃ r b, transformSrctoCrate ctx main deps flags outputFile crate_type linkDirs = .ok r ∧
      mainAction r = some b ∧ r.2.getLast? = some b ∧
      b.arg "rustcFlags" =
        some (strings.Join (finalRustcFlags ctx flags outputFile crate_type) " ") ∧
      "--crate-type=" ++ crate_type ∈ finalRustcFlags ctx flags outputFile crate_type) ∧
    (∀ run ∈ [TransformSrcToBinary, TransformSrctoRlib, TransformSrctoDylib,
        TransformSrctoStatic, TransformSrctoShared, TransformSrctoProcMacro],
      ∃ kind ∈ ["bin", "rlib", "dylib", "staticlib", "cdylib", "proc-macro"], ∃ flags',
        run ctx main deps flags outputFile linkDirs =
          transformSrctoCrate ctx main deps flags' outputFile kind linkDirs) := by
  constructor
  · obtain ⟨r, lint, hr, _, h2, _⟩ :=
      transformSrctoCrate_ok ctx main deps flags outputFile crate_type linkDirs hcrt
    obtain ⟨r', hr', hm⟩ := mainAction_ok ctx main deps flags outputFile crate_type linkDirs hcrt
    rw [hr] at hr'
    injection hr' with hr'
    subst hr'
    refine ⟨r, _, hr, hm, by rw [h2]; simp, rfl, ?_⟩
    rw [finalRustcFlags_eq]
    simp [addedRustcFlags]
  · intro run hrun
    simp only [List.mem_cons, List.mem_singleton, List.not_mem_nil, or_false] at hrun
    rcases hrun with h | h | h | h | h | h <;> subst h
    · exact ⟨"bin", by simp, _, rfl⟩
    · exact ⟨"rlib", by simp, _, rfl⟩
    · exact ⟨"dylib", by simp, _, rfl⟩
    · exact ⟨"staticlib", by simp, _, rfl⟩
    · exact ⟨"cdylib", by simp, _, rfl⟩
    · exact ⟨"proc-macro", by simp, _, rfl⟩

/-- C19 amended, at the sample request. -/
theorem crate_kind_not_validated_witness :
    (sampleDeps.CrtBegin.Valid = true → sampleDeps.CrtEnd.Valid = true) ∧
    ((∃ r b,
      transformSrctoCrate sampleCtx sampleMain sampleDeps sampleFlags sampleOut "rlib" [] = .ok r ∧
      mainAction r = some b ∧ r.2.getLast? = some b ∧
      b.arg "rustcFlags" =
        some (strings.Join (finalRustcFlags sampleCtx sampleFlags sampleOut "rlib") " ") ∧
      "--crate-type=" ++ "rlib" ∈ finalRustcFlags sampleCtx sampleFlags sampleOut "rlib") ∧
    (∀ run ∈ [TransformSrcToBinary, TransformSrctoRlib, TransformSrctoDylib,
        TransformSrctoStatic, TransformSrctoShared, TransformSrctoProcMacro],
      ∃ kind ∈ ["bin", "rlib", "dylib", "staticlib", "cdylib", "proc-macro"], ∃ sampleFlags',
        run sampleCtx sampleMain sampleDeps sampleFlags sampleOut [] =
          transformSrctoCrate sampleCtx sampleMain sampleDeps sampleFlags' sampleOut kind [])) :=
  ⟨fun _ => rfl,
    crate_kind_not_validated sampleCtx sampleMain sampleDeps sampleFlags sampleOut "rlib" []
      (fun _ => rfl)⟩

/-! ## The startup and teardown arguments -/

/-- C20: the `crtBegin` and `crtEnd` arguments of the main action are the
string forms of the startup and teardown objects when these are present and
the empty string when they are absent.  When the pair is absent the implicit
inputs hold no startup/teardown entry; when it is present the two argument
values are the two paths that end the dependency implicit inputs, in that
order (only the lint marker, when lint is enabled, comes after them). -/
theorem crt_arguments (ctx : ModuleContext) (main : Path) (deps : PathDeps)
    (flags : Flags) (outputFile : Path) (crate_type : String) (linkDirs : List String)
    (hcrt : deps.CrtBegin.Valid = true → deps.CrtEnd.Valid = true) :
    ∃ r b, transformSrctoCrate ctx main deps flags outputFile crate_type linkDirs = .ok r ∧
      mainAction r = some b ∧
      (∀ p, deps.CrtBegin = some p → b.arg "crtBegin" = some p.String) ∧
      (deps.CrtBegin = none → b.arg "crtBegin" = some "") ∧
      (∀ q, deps.CrtEnd = some q → b.arg "crtEnd" = some q.String) ∧
      (deps.CrtEnd = none → b.arg "crtEnd" = some "") ∧
      (deps.CrtBegin = none → deps.CrtEnd = none →
        b.Implicits =
          deps.RLibs.map (fun lib => lib.Path) ++ deps.DyLibs.map (fun lib => lib.Path) ++
            deps.ProcMacros.map (fun lib => lib.Path) ++ deps.StaticLibs ++ deps.SharedLibs ++
            (if flags.Clippy then [clippyFile ctx outputFile] else [])) ∧
      (∀ p q, deps.CrtBegin = some p → deps.CrtEnd = some q →
        b.arg "crtBegin" = some p.String ∧ b.arg "crtEnd" = some q.String ∧
        b.Implicits =
          deps.RLibs.map (fun lib => lib.Path) ++ deps.DyLibs.map (fun lib => lib.Path) ++
            deps.ProcMacros.map (fun lib => lib.Path) ++ deps.StaticLibs ++ deps.SharedLibs ++
            [p, q] ++ (if flags.Clippy then [clippyFile ctx outputFile] else [])) := by
  obtain ⟨r, hr, hm⟩ := mainAction_ok ctx main deps flags outputFile crate_type linkDirs hcrt
  have hb : ∀ p, deps.CrtBegin = some p → deps.CrtBegin.String = p.String := by
    intro p hp; rw [hp]; rfl
  have hb0 : deps.CrtBegin = none → deps.CrtBegin.String = "" := by
    intro hp; rw [hp]; rfl
  have he : ∀ q, deps.CrtEnd = some q → deps.CrtEnd.String = q.String := by
    intro q hq; rw [hq]; rfl
  have he0 : deps.CrtEnd = none → deps.CrtEnd.String = "" := by
    intro hq; rw [hq]; rfl
  refine ⟨r, _, hr, hm, ?_, ?_, ?_, ?_, ?_, ?_⟩
  · intro p hp
    simp only [BuildParams.arg, List.lookup]
    exact congrArg some (hb p hp)
  · intro hp
    simp only [BuildParams.arg, List.lookup]
    exact congrArg some (hb0 hp)
  · intro q hq
    simp only [BuildParams.arg, List.lookup]
    exact congrArg some (he q hq)
  · intro hq
    simp only [BuildParams.arg, List.lookup]
    exact congrArg some (he0 hq)
  · intro hp hq
    cases flags.Clippy <;> simp [depImplicits, crtPair, hp, hq]
  · intro p q hp hq
    refine ⟨?_, ?_, ?_⟩
    · simp only [BuildParams.arg, List.lookup]
      exact congrArg some (hb p hp)
    · simp only [BuildParams.arg, List.lookup]
      exact congrArg some (he q hq)
    · cases flags.Clippy <;> simp [depImplicits, crtPair, hp, hq]

/-- C20, at the sample request with lint switched on, whose pair is present. -/
theorem crt_arguments_witness :
    (sampleDeps.CrtBegin.Valid = true → sampleDeps.CrtEnd.Valid = true) ∧
    ∃ r b,
      transformSrctoCrate sampleCtx sampleMain sampleDeps sampleLintFlags sampleOut "bin" [] =
        .ok r ∧
      mainAction r = some b ∧
      (∀ p, sampleDeps.CrtBegin = some p → b.arg "crtBegin" = some p.String) ∧
      (sampleDeps.CrtBegin = none → b.arg "crtBegin" = some "") ∧
      (∀ q, sampleDeps.CrtEnd = some q → b.arg "crtEnd" = some q.String) ∧
      (sampleDeps.CrtEnd = none → b.arg "crtEnd" = some "") ∧
      (sampleDeps.CrtBegin = none → sampleDeps.CrtEnd = none →
        b.Implicits =
          sampleDeps.RLibs.map (fun lib => lib.Path) ++ sampleDeps.DyLibs.map (fun lib => lib.Path) ++
            sampleDeps.ProcMacros.map (fun lib => lib.Path) ++ sampleDeps.StaticLibs ++
            sampleDeps.SharedLibs ++
            (if sampleLintFlags.Clippy then [clippyFile sampleCtx sampleOut] else [])) ∧
      (∀ p q, sampleDeps.CrtBegin = some p → sampleDeps.CrtEnd = some q →
        b.arg "crtBegin" = some p.String ∧ b.arg "crtEnd" = some q.String ∧
        b.Implicits =
          sampleDeps.RLibs.map (fun lib => lib.Path) ++ sampleDeps.DyLibs.map (fun lib => lib.Path) ++
            sampleDeps.ProcMacros.map (fun lib => lib.Path) ++ sampleDeps.StaticLibs ++
            sampleDeps.SharedLibs ++
            [p, q] ++ (if sampleLintFlags.Clippy then [clippyFile sampleCtx sampleOut] else [])) :=
  ⟨fun _ => rfl,
    crt_arguments sampleCtx sampleMain sampleDeps sampleLintFlags sampleOut "bin" []
      (fun _ => rfl)⟩

end rust
